import Mathlib

/-!
Shallow embedding of the apk-sss book-processing pipeline
(src/main_processor.py, src/scraper.py, src/ocr_pdf.py, src/update_state.py)
together with theorems settling the frozen claims about its specification.

Conventions of the embedding:
- Python dictionaries holding an item record are modelled by the structure
  Book.  A string field that may be absent in the dictionary is modelled by
  the empty string when every read of it in the source only tests Python
  truthiness (absent and empty string are both falsy); the error_message
  field is modelled by Option String because update_state.py distinguishes
  key presence (it deletes the key).
- External effects (HTTP fetches, the OCR service, pandoc, file copies,
  sleeps, state saves) are modelled by explicit environment records supplying
  the outcome of each call, and by an event trace listing the calls made.
- File contents stand in for files: a calculated SHA-256 value is an
  Option String (none models a read failure), presence on disk is a Bool
  supplied by the environment at the moment the source consults it.
-/

namespace ApkSss

/-- Truthiness of a Python string: non-empty strings are truthy. -/
def pyTruthy (s : String) : Bool := s ≠ ""

/-- One item record of the record store (one entry of the books list in
processing_state_*.json).  Fields mirror the keys written by scraper.py and
main_processor.py. -/
structure Book where
  id : String
  title_kannada : String
  author_kannada : String
  title_english_slug : String
  author_english_slug : String
  pdf_url : String
  local_pdf_path : String
  local_md_path : String
  local_docx_path : String
  /-- Overall status; the empty string models an absent key. -/
  status : String
  download_status : String
  ocr_status : String
  docx_conversion_status : String
  copy_to_sdcard_status : String
  /-- Recorded SHA-256 fingerprint; the empty string models an absent key
  (every read in the source only tests truthiness). -/
  pdf_sha256_hash : String
  /-- Last fatal error text; none models an absent key. -/
  error_message : Option String
deriving DecidableEq, Repr

/-! ## Record store save (scraper.save_state, lines 45-50)

The source is:  open(state_file_path, 'w') followed by json.dump(state, f).
Opening with mode 'w' truncates the file to empty immediately; json.dump then
streams the serialized state into it.  We model the file content as a String;
a crash after the truncation has written only a prefix of the new
serialization. -/

/-- Content of the state file after an uninterrupted save_state call:
mode 'w' truncates the previous content, then the whole serialization is
written.  The first argument is the previous file content. -/
def save_state (_oldContent : String) (serialized : String) : String :=
  "" ++ serialized

/-- Content of the state file when the process crashes during save_state
after only the first written bytes of the serialization reached the file:
the old content was already truncated away by open(..., 'w'). -/
def save_state_crashed (_oldContent : String) (serialized : String)
    (written : Nat) : String :=
  "" ++ serialized.take written

/-! ## Operator reset (update_state.reset_statuses, lines 54-63) -/

/-- Per-record body of the reset loop of update_state.py: records whose
status is failed or in_progress get status, download_status, ocr_status and
docx_conversion_status set back to pending and their error_message key
deleted; every other record is left untouched. -/
def reset_book (b : Book) : Book :=
  if b.status = "failed" ∨ b.status = "in_progress" then
    { b with
      status := "pending"
      download_status := "pending"
      ocr_status := "pending"
      docx_conversion_status := "pending"
      error_message := none }
  else b

/-- Loop of reset_statuses over all records of one state file. -/
def reset_statuses (books : List Book) : List Book :=
  books.map reset_book

/-! ## Work-queue selection (main_processor.process_books_workflow,
lines 207-214)

The source filters records whose status is not completed and then truncates
with books_to_process[:limit_books] guarded by Python truthiness of
limit_books (None and 0 are falsy, any non-zero integer is truthy). -/

/-- Python list slicing xs[:l] for an integer l: a non-negative l keeps the
first l elements, a negative l keeps all but the last -l elements (clamped
at zero). -/
def pySliceTo {α : Type} (xs : List α) (l : Int) : List α :=
  if 0 ≤ l then xs.take l.toNat else xs.take (xs.length - l.natAbs)

/-- Work-queue selection: filter the records whose status is not completed,
then truncate only when limit_books is truthy (not None and not 0). -/
def select_books (books : List Book) (limit_books : Option Int) : List Book :=
  let queue := books.filter (fun b => b.status ≠ "completed")
  match limit_books with
  | none => queue
  | some l => if l ≠ 0 then pySliceTo queue l else queue

/-! ## PDF download (main_processor.download_pdf, lines 64-121)

The function consults the file system (existence of the local file and its
current SHA-256) and, when it falls through to an actual fetch, the network
(whether requests.get plus the streamed write succeed, and the SHA-256 of the
freshly written file).  Both are supplied by environment records. -/

/-- View of the local file at the start of one download_pdf call. -/
structure FileView where
  onDisk : Bool
  /-- Result of calculate_sha256 on the local file; none models a failure of
  the hash computation (unreadable file). -/
  sha : Option String
deriving DecidableEq, Repr

/-- Outcome of the network fetch part of one download_pdf call. -/
structure FetchView where
  /-- The requests.get call and the streamed write raise no exception. -/
  fetchOk : Bool
  /-- SHA-256 of the freshly downloaded file; none models a hash failure. -/
  newSha : Option String
deriving DecidableEq, Repr

/-- Result of a download_pdf call: the (possibly updated) record, the boolean
the function returns, and whether a network fetch was performed at all. -/
structure DownloadResult where
  book : Book
  ok : Bool
  fetched : Bool
deriving DecidableEq, Repr

/-- Fetch branch of download_pdf (lines 97-121): on a successful fetch the
new hash is recorded and True returned; a hash failure or a request
exception returns False without touching the record. -/
def download_fetch (b : Book) (net : FetchView) : DownloadResult :=
  if net.fetchOk then
    match net.newSha with
    | some h => ⟨{ b with pdf_sha256_hash := h }, true, true⟩
    | none => ⟨b, false, true⟩
  else ⟨b, false, true⟩

/-- Model of download_pdf: reuse path (existing file, lines 77-95) before the
fetch path.  An existing file with a matching recorded hash is reused; a
mismatch removes the file and re-fetches; an existing file with no recorded
hash is trusted, its current hash recorded, and no fetch happens; a hash
computation failure removes the file and re-fetches. -/
def download_pdf (b : Book) (fv : FileView) (net : FetchView) : DownloadResult :=
  if fv.onDisk then
    match fv.sha with
    | some current =>
      if pyTruthy b.pdf_sha256_hash ∧ current = b.pdf_sha256_hash then
        ⟨b, true, false⟩
      else if pyTruthy b.pdf_sha256_hash ∧ current ≠ b.pdf_sha256_hash then
        download_fetch b net
      else
        ⟨{ b with pdf_sha256_hash := current }, true, false⟩
    | none => download_fetch b net
  else download_fetch b net

/-! ## Stage Executor (main_processor.process_books_workflow, lines 218-391)

Each per-item iteration of the orchestrator loop is modelled by processBook:
it threads the record through the four stages, collecting an event trace.
Adapter outcomes and file-system observations are supplied by a BookEnv. -/

/-- One observable event of a per-item iteration. -/
inductive Ev where
  /-- A save_state call persisting the record store. -/
  | save
  /-- A time.sleep call of the given number of seconds. -/
  | sleep (secs : Nat)
  /-- One invocation of download_pdf. -/
  | callDownload
  /-- One invocation of ocr_to_markdown. -/
  | callOcr
  /-- One invocation of process_markdown_to_docx. -/
  | callDocx
  /-- A copy_to_phone_storage invocation for the raw PDF. -/
  | copyRaw
  /-- A copy_to_phone_storage invocation for the markdown file. -/
  | copyMd
  /-- A copy_to_phone_storage invocation for the DOCX file. -/
  | copyDocx
deriving DecidableEq, Repr

/-- Outcome of one ocr_to_markdown invocation as seen by the executor:
the returned value (none models both a None return and a raised exception,
which the executor treats alike) and whether the returned path exists on
disk. -/
structure OcrAttempt where
  ret : Option String
  retOnDisk : Bool
deriving DecidableEq, Repr

/-- Outcome of one process_markdown_to_docx invocation as seen by the
executor: the returned boolean (false also models a raised exception) and
whether the output DOCX file exists afterwards. -/
structure DocxAttempt where
  reported : Bool
  outOnDisk : Bool
deriving DecidableEq, Repr

/-- Files present at the replication target (the SD card directories). -/
structure DestState where
  raw : Bool
  md : Bool
  docx : Bool
deriving DecidableEq, Repr

/-- Environment of the replicate stage: what is already at the destination,
whether each source file exists, and whether each attempted cp succeeds. -/
structure ReplicateEnv where
  destBefore : DestState
  rawSrcOnDisk : Bool
  cpRawOk : Bool
  mdSrcOnDisk : Bool
  cpMdOk : Bool
  docxSrcOnDisk : Bool
  cpDocxOk : Bool
deriving DecidableEq, Repr

/-- Environment of one per-item iteration: per-attempt outcomes for the
three retried stages and the file-system observations made between them. -/
structure BookEnv where
  /-- File-system and network view consumed by the i-th download_pdf call. -/
  download : Nat → FileView × FetchView
  /-- Existence of the raw PDF at the OCR precondition check. -/
  pdfOnDiskAtOcr : Bool
  /-- Result of calculate_sha256 at the OCR precondition check. -/
  pdfShaAtOcr : Option String
  /-- Outcome of the i-th ocr_to_markdown call. -/
  ocr : Nat → OcrAttempt
  /-- Existence of the markdown file at the DOCX precondition check. -/
  mdOnDiskAtDocx : Bool
  /-- Outcome of the i-th process_markdown_to_docx call. -/
  docx : Nat → DocxAttempt
  repl : ReplicateEnv

/-- Result of copy_to_phone_storage (lines 123-142): the copy succeeds when
the source exists and the cp subprocess exits cleanly. -/
def copy_to_phone_storage (srcOnDisk cpOk : Bool) : Bool :=
  srcOnDisk && cpOk

/-- Download retry loop (lines 240-251): up to the given number of attempts;
each failure is followed by a 5 second sleep; a success sets download_status
completed and breaks. -/
def downloadAttempts : Nat → Nat → Book → (Nat → FileView × FetchView) →
    Book × Bool × List Ev
  | 0, _, b, _ => (b, false, [])
  | Nat.succ k, i, b, env =>
    let r := download_pdf b (env i).1 (env i).2
    if r.ok then
      ({ r.book with download_status := "completed" }, true, [Ev.callDownload])
    else
      let rest := downloadAttempts k (i + 1) r.book env
      (rest.1, rest.2.1, Ev.callDownload :: Ev.sleep 5 :: rest.2.2)

/-- Download stage (lines 233-261).  Returns the updated record, whether the
iteration proceeds to the next stage (false models the continue statement),
and the event trace. -/
def downloadStage (b : Book) (env : Nat → FileView × FetchView) :
    Book × Bool × List Ev :=
  if b.download_status ≠ "completed" then
    let b1 := { b with status := "in_progress", download_status := "in_progress" }
    let r := downloadAttempts 3 0 b1 env
    if r.2.1 then
      (r.1, true, Ev.save :: r.2.2 ++ [Ev.save])
    else
      ({ r.1 with
          download_status := "failed"
          status := "failed"
          error_message := some "PDF download failed after multiple retries." },
        false, Ev.save :: r.2.2 ++ [Ev.save, Ev.sleep 2])
  else (b, true, [])

/-- OCR retry loop (lines 283-305): a returned path that exists on disk is a
success (recording the returned path as the authoritative markdown path);
anything else is a failure followed by a 5 second sleep. -/
def ocrAttempts : Nat → Nat → Book → (Nat → OcrAttempt) →
    Book × Bool × List Ev
  | 0, _, b, _ => (b, false, [])
  | Nat.succ k, i, b, env =>
    let a := env i
    match a.ret with
    | some p =>
      if a.retOnDisk then
        ({ b with ocr_status := "completed", local_md_path := p },
          true, [Ev.callOcr])
      else
        let rest := ocrAttempts k (i + 1) b env
        (rest.1, rest.2.1, Ev.callOcr :: Ev.sleep 5 :: rest.2.2)
    | none =>
      let rest := ocrAttempts k (i + 1) b env
      (rest.1, rest.2.1, Ev.callOcr :: Ev.sleep 5 :: rest.2.2)

/-- OCR stage (lines 263-315), including the precondition check of lines
267-275: a missing raw PDF, or a recorded fingerprint that the current hash
does not match, fails the stage and the item immediately with no adapter
call. -/
def ocrStage (b : Book) (pdfOnDisk : Bool) (sha : Option String)
    (env : Nat → OcrAttempt) : Book × Bool × List Ev :=
  if b.ocr_status ≠ "completed" then
    if ¬pdfOnDisk ∨ (pyTruthy b.pdf_sha256_hash ∧ sha ≠ some b.pdf_sha256_hash) then
      ({ b with
          ocr_status := "failed"
          status := "failed"
          error_message := some "PDF file missing or corrupted before OCR." },
        false, [Ev.save, Ev.sleep 2])
    else
      let b1 := { b with status := "in_progress", ocr_status := "in_progress" }
      let r := ocrAttempts 3 0 b1 env
      if r.2.1 then
        (r.1, true, Ev.save :: r.2.2 ++ [Ev.save])
      else
        ({ r.1 with
            ocr_status := "failed"
            status := "failed"
            error_message := some "OCR to Markdown failed after multiple retries." },
          false, Ev.save :: r.2.2 ++ [Ev.save, Ev.sleep 2])
  else (b, true, [])

/-- DOCX retry loop (lines 338-356): a reported success is accepted only if
the output file exists afterwards; otherwise the attempt is a failure
followed by a 5 second sleep. -/
def docxAttempts : Nat → Nat → Book → (Nat → DocxAttempt) →
    Book × Bool × List Ev
  | 0, _, b, _ => (b, false, [])
  | Nat.succ k, i, b, env =>
    let a := env i
    if a.reported && a.outOnDisk then
      ({ b with docx_conversion_status := "completed" }, true, [Ev.callDocx])
    else
      let rest := docxAttempts k (i + 1) b env
      (rest.1, rest.2.1, Ev.callDocx :: Ev.sleep 5 :: rest.2.2)

/-- DOCX conversion stage (lines 317-366), including the precondition check
of lines 321-330 (the markdown file must exist). -/
def docxStage (b : Book) (mdOnDisk : Bool) (env : Nat → DocxAttempt) :
    Book × Bool × List Ev :=
  if b.docx_conversion_status ≠ "completed" then
    if ¬mdOnDisk then
      ({ b with
          docx_conversion_status := "failed"
          status := "failed"
          error_message := some "Markdown file missing before DOCX conversion." },
        false, [Ev.save, Ev.sleep 2])
    else
      let b1 := { b with status := "in_progress", docx_conversion_status := "in_progress" }
      let r := docxAttempts 3 0 b1 env
      if r.2.1 then
        (r.1, true, Ev.save :: r.2.2 ++ [Ev.save])
      else
        ({ r.1 with
            docx_conversion_status := "failed"
            status := "failed"
            error_message := some "DOCX conversion failed after multiple retries." },
          false, Ev.save :: r.2.2 ++ [Ev.save, Ev.sleep 2])
  else (b, true, [])

/-- Replicate stage (lines 368-391).  The raw PDF is copied best-effort only
when absent at the destination and its success is never consulted; the
markdown and DOCX copies decide the stage: both must succeed for the stage
and the item to be completed, otherwise both are marked failed and the
error message defaults to a fixed text only when no error_message is
already present.  Runs unconditionally: the source has no gate on
copy_to_sdcard_status. -/
def replicateStage (b : Book) (env : ReplicateEnv) :
    Book × DestState × List Ev :=
  let rawCopied := copy_to_phone_storage env.rawSrcOnDisk env.cpRawOk
  let destRaw := env.destBefore.raw || (!env.destBefore.raw && rawCopied)
  let rawEvs := if ¬env.destBefore.raw then [Ev.copyRaw] else []
  let mdOk := copy_to_phone_storage env.mdSrcOnDisk env.cpMdOk
  let docxOk := copy_to_phone_storage env.docxSrcOnDisk env.cpDocxOk
  let destAfter : DestState :=
    ⟨destRaw, env.destBefore.md || mdOk, env.destBefore.docx || docxOk⟩
  let evs := rawEvs ++ [Ev.copyMd, Ev.copyDocx, Ev.save, Ev.sleep 2]
  if mdOk && docxOk then
    ({ b with copy_to_sdcard_status := "completed", status := "completed" },
      destAfter, evs)
  else
    ({ b with
        copy_to_sdcard_status := "failed"
        status := "failed"
        error_message := some (b.error_message.getD "File copying to SD card failed.") },
      destAfter, evs)

/-- One per-item iteration of the orchestrator loop (lines 218-391), stages
in source order; a stage that takes the continue path stops the iteration
(the trailing sleep of line 391 is part of each stage's failure trace). -/
def processBook (b : Book) (env : BookEnv) : Book × DestState × List Ev :=
  let r1 := downloadStage b env.download
  if ¬r1.2.1 then (r1.1, env.repl.destBefore, r1.2.2)
  else
    let r2 := ocrStage r1.1 env.pdfOnDiskAtOcr env.pdfShaAtOcr env.ocr
    if ¬r2.2.1 then (r2.1, env.repl.destBefore, r1.2.2 ++ r2.2.2)
    else
      let r3 := docxStage r2.1 env.mdOnDiskAtDocx env.docx
      if ¬r3.2.1 then (r3.1, env.repl.destBefore, r1.2.2 ++ r2.2.2 ++ r3.2.2)
      else
        let r4 := replicateStage r3.1 env.repl
        (r4.1, r4.2.1, r1.2.2 ++ r2.2.2 ++ r3.2.2 ++ r4.2.2)

/-- Whole run over the selected work queue, one record at a time; no item
outcome can abort the loop. -/
def processAll : List (Book × BookEnv) → List (Book × DestState × List Ev)
  | [] => []
  | (b, env) :: rest => processBook b env :: processAll rest

/-! ## Merge of scraped items into the record store
(main_processor.process_books_workflow, lines 175-202)

The source builds a dictionary from record id to record, walks the scraped
list, updates the record with a matching id in place (refreshing only the
Kannada title and author, the PDF URL and the three local paths, and filling
the English slug fields only when they are empty or missing), appends
genuinely new records, and finally sorts the list by the id left-padded with
zeros to width 3.  The dictionary lookup resolves to the unique record with
that id under the store invariant that ids are unique; the model updates
every record with the matching id, which coincides with the source under
that invariant (stated as a hypothesis of the theorems). -/

/-- Python str.zfill(3) for the unsigned ids produced by the scraper
(ids are extracted by a digits-then-letter regex, so no sign handling is
needed): pad on the left with zeros to width 3. -/
def zfill3 (s : String) : String :=
  if s.length < 3 then String.mk (List.replicate (3 - s.length) '0') ++ s else s

/-- Ids of a record list, in order. -/
def ids (books : List Book) : List String :=
  books.map Book.id

/-- In-place update of an existing record from a freshly scraped one
(lines 183-195): refresh the always-overwritten fields, fill each English
slug only when it is currently falsy. -/
def updateBook (b nb : Book) : Book :=
  { b with
    title_kannada := nb.title_kannada
    author_kannada := nb.author_kannada
    pdf_url := nb.pdf_url
    local_pdf_path := nb.local_pdf_path
    local_md_path := nb.local_md_path
    local_docx_path := nb.local_docx_path
    title_english_slug :=
      if pyTruthy b.title_english_slug then b.title_english_slug
      else nb.title_english_slug
    author_english_slug :=
      if pyTruthy b.author_english_slug then b.author_english_slug
      else nb.author_english_slug }

/-- Body of the merge loop for one scraped item (lines 176-199): update the
record with the same id when one exists, otherwise append the new record. -/
def mergeOne (books : List Book) (nb : Book) : List Book :=
  if nb.id ∈ ids books then
    books.map (fun b => if b.id = nb.id then updateBook b nb else b)
  else books ++ [nb]

/-- Sort order of line 202: by the id padded with zeros to width 3,
compared as strings. -/
def bookLE (b1 b2 : Book) : Prop :=
  zfill3 b1.id ≤ zfill3 b2.id

instance : DecidableRel bookLE := fun b1 b2 =>
  inferInstanceAs (Decidable (zfill3 b1.id ≤ zfill3 b2.id))

instance : IsTotal Book bookLE :=
  ⟨fun b1 b2 => le_total (zfill3 b1.id) (zfill3 b2.id)⟩

instance : IsTrans Book bookLE :=
  ⟨fun _ _ _ h1 h2 => le_trans h1 h2⟩

/-- Stable sort of the record list by the padded id (line 202); Python
list.sort is stable, and a stable sort by a key is extensionally unique, so
insertion sort computes the same list. -/
def sortBooks (books : List Book) : List Book :=
  List.insertionSort bookLE books

/-- One merge of a scraped item list into the record store: the loop of
lines 176-199 followed by the sort of line 202. -/
def merge_scraped (books scraped : List Book) : List Book :=
  sortBooks (scraped.foldl mergeOne books)

/-- Stability of a record list for one scraped item: every record carrying
its id is unchanged by a further update from that item (vocabulary for the
merge idempotence theorem). -/
def FixedFor (nb : Book) (books : List Book) : Prop :=
  ∀ b ∈ books, b.id = nb.id → updateBook b nb = b

/-! ## OCR with chunking (ocr_pdf.ocr_to_markdown, lines 215-285, and
ocr_pdf.split_pdf_into_chunks, lines 70-108) -/

/-- Sarvam AI page limit beyond which a PDF is split (ocr_pdf.py line 48). -/
def SARVAM_AI_PAGE_LIMIT : Nat := 500

/-- Separator written after each merged chunk (ocr_pdf.py line 278). -/
def CHUNK_SEPARATOR : String := "\n\n---\n\n"

/-- Python range(0, total, step) for a positive step: the chunk start
pages. -/
def pyRangeStep (total step : Nat) : List Nat :=
  List.range' 0 ((total + step - 1) / step) step

/-- Page ranges of the chunks produced by split_pdf_into_chunks: for each
start page i the chunk covers pages i to min (i + step) total exclusive
(lines 89-92; pages are 0-based here as in the source's range arithmetic). -/
def split_bounds (total step : Nat) : List (Nat × Nat) :=
  (pyRangeStep total step).map (fun i => (i, min (i + step) total))

/-- Outcome of one ocr_to_markdown call, abstracting files by their
contents: the returned value, the content written to the requested output
file by the merge loop of lines 272-280 (chunked path only; the single-call
path delegates the write to the chunk helper and is not content-modelled),
the number of chunk OCR invocations, and how many intermediate chunk PDFs
and chunk markdown files were deleted. -/
structure ChunkedRun where
  retPath : Option String
  outContent : Option String
  ocrCalls : Nat
  chunkPdfsDeleted : Nat
  chunkMdsDeleted : Nat
deriving DecidableEq, Repr

/-- Chunk processing loop of lines 249-261: collect each chunk's markdown
until the first failing chunk, which aborts the loop.  Returns the collected
contents, the overall success flag, and the number of OCR calls made. -/
def chunkLoop : List (Option String) → List String × Bool × Nat
  | [] => ([], true, 0)
  | r :: rest =>
    match r with
    | some md =>
      let (mds, ok, c) := chunkLoop rest
      (md :: mds, ok, c + 1)
    | none => ([], false, 1)

/-- Merge of the chunk markdown contents (lines 274-279): each chunk's
content followed by the separator, concatenated in chunk order. -/
def mergeChunks (mds : List String) : String :=
  String.join (mds.map (fun c => c ++ CHUNK_SEPARATOR))

/-- Model of ocr_to_markdown.  Environment: whether the PDF exists, the
integrity pre-check error (none when the PDF is readable), whether the
split into chunk files succeeds, the OCR outcome of each chunk in order
(content or failure), and the outcome of the direct single call used when
the page count is within the limit.  The requested output path is returned
verbatim on the chunked success path (the source returns its absolute
form). -/
def ocr_to_markdown_run (pageCount : Nat) (pdfOnDisk : Bool)
    (integrityError : Option String) (splitOk : Bool)
    (chunkResults : List (Option String)) (outputMdPath : String)
    (singleResult : Option String) : ChunkedRun :=
  if ¬pdfOnDisk then ⟨none, none, 0, 0, 0⟩
  else if integrityError.isSome then ⟨none, none, 0, 0, 0⟩
  else if SARVAM_AI_PAGE_LIMIT < pageCount then
    if ¬splitOk then ⟨none, none, 0, 0, 0⟩
    else
      let totalChunks := (split_bounds pageCount SARVAM_AI_PAGE_LIMIT).length
      let (mds, ok, calls) := chunkLoop chunkResults
      if ok then
        ⟨some outputMdPath, some (mergeChunks mds), calls, totalChunks, mds.length⟩
      else ⟨none, none, calls, totalChunks, 0⟩
  else
    match singleResult with
    | some p => ⟨some p, none, 1, 0, 0⟩
    | none => ⟨none, none, 1, 0, 0⟩

/-! ## Concrete records and environments used by witnesses and
counterexamples -/

/-- A plain pending record. -/
def sampleBook : Book :=
  { id := "001"
    title_kannada := "tk"
    author_kannada := "ak"
    title_english_slug := "tslug"
    author_english_slug := "aslug"
    pdf_url := "http://example.org/001/index.pdf"
    local_pdf_path := "raw_pdf/p/001/x.pdf"
    local_md_path := "processed_docs/p/001/x.md"
    local_docx_path := "processed_docs/p/001/x.docx"
    status := "pending"
    download_status := "pending"
    ocr_status := "pending"
    docx_conversion_status := "pending"
    copy_to_sdcard_status := "pending"
    pdf_sha256_hash := ""
    error_message := none }

/-- A second pending record with a different id. -/
def sampleBook2 : Book :=
  { sampleBook with id := "002", pdf_url := "http://example.org/002/index.pdf" }

/-- A record whose replicate stage failed along with the item. -/
def failedCopyBook : Book :=
  { sampleBook with
    status := "failed"
    download_status := "completed"
    ocr_status := "completed"
    docx_conversion_status := "completed"
    copy_to_sdcard_status := "failed"
    error_message := some "File copying to SD card failed." }

/-- A record with every stage already completed but an overall status that
still selects it for processing. -/
def allStagesDoneBook : Book :=
  { sampleBook with
    status := "pending"
    download_status := "completed"
    ocr_status := "completed"
    docx_conversion_status := "completed"
    copy_to_sdcard_status := "completed"
    pdf_sha256_hash := "h0" }

/-- Environment in which every adapter call succeeds and the raw PDF is
already present at the replication target. -/
def happyEnv : BookEnv :=
  { download := fun _ => (⟨true, some "h0"⟩, ⟨true, some "h0"⟩)
    pdfOnDiskAtOcr := true
    pdfShaAtOcr := some "h0"
    ocr := fun _ => ⟨some "processed_docs/p/001/x.md", true⟩
    mdOnDiskAtDocx := true
    docx := fun _ => ⟨true, true⟩
    repl := ⟨⟨true, false, false⟩, true, true, true, true, true, true⟩ }

/-- Environment in which every adapter call fails: the download never
fetches successfully, the OCR service reports a path that does not exist on
disk, and pandoc reports success while the DOCX file is missing. -/
def alwaysFailEnv : BookEnv :=
  { download := fun _ => (⟨false, none⟩, ⟨false, none⟩)
    pdfOnDiskAtOcr := true
    pdfShaAtOcr := none
    ocr := fun _ => ⟨some "processed_docs/p/001/x.md", false⟩
    mdOnDiskAtDocx := true
    docx := fun _ => ⟨true, false⟩
    repl := ⟨⟨false, false, false⟩, false, false, false, false, false, false⟩ }

/-- Replicate environment in which only the markdown copy fails. -/
def replEnvMdFails : ReplicateEnv :=
  ⟨⟨true, false, false⟩, true, true, true, false, true, true⟩

/-- Replicate environment in which only the DOCX copy fails. -/
def replEnvDocxFails : ReplicateEnv :=
  ⟨⟨true, false, false⟩, true, true, true, true, true, false⟩

/-! # Theorems -/

/-! ## C6: saving the record store -/

/-- C6 counterexample: saving is not atomic.  A crash while save_state is
writing (here: after 3 characters of the new serialization reached the
file opened with mode 'w') leaves the state file holding neither the last
successfully written state nor the new one, refuting the claim that a crash
during a save leaves the last successfully written state intact. -/
theorem c6_save_not_atomic_counterexample :
    save_state_crashed "OLDSTATE" "NEWSTATE" 3 = "NEW" ∧
    save_state_crashed "OLDSTATE" "NEWSTATE" 3 ≠ "OLDSTATE" ∧
    save_state_crashed "OLDSTATE" "NEWSTATE" 3 ≠ "NEWSTATE" := by
  refine ⟨?_, ?_, ?_⟩ <;> decide

/-- C6 amended: save_state is a full in-place rewrite, not an append — the
resulting file content is exactly the new serialization and is independent
of the previous content — but the rewrite is not atomic: because mode 'w'
truncates first, a crash before any byte is written leaves an empty file
rather than the previous state. -/
theorem c6_save_full_rewrite_not_atomic :
    (∀ old1 old2 s : String, save_state old1 s = save_state old2 s) ∧
    (∀ old s : String, save_state old s = s) ∧
    (∀ old s : String, old ≠ "" →
      save_state_crashed old s 0 = "" ∧ save_state_crashed old s 0 ≠ old) := by
  refine ⟨fun _ _ _ => rfl, fun _ _ => rfl, fun old s hold => ?_⟩
  have h0 : save_state_crashed old s 0 = "" := by
    show "" ++ s.take 0 = ""
    rw [String.take_eq]
    rfl
  exact ⟨h0, by rw [h0]; exact fun h => hold h.symm⟩

/-- C6 witness for the amended theorem at concrete inputs. -/
theorem c6_save_full_rewrite_not_atomic_witness :
    save_state "A" "B" = "B" ∧
    (save_state_crashed "A" "B" 0 = "" ∧ save_state_crashed "A" "B" 0 ≠ "A") :=
  ⟨c6_save_full_rewrite_not_atomic.2.1 "A" "B",
    c6_save_full_rewrite_not_atomic.2.2 "A" "B" (by decide)⟩

/-! ## C7: operator reset -/

/-- C7 counterexample: a record that failed in the replicate stage has
overall status failed, yet reset_statuses leaves its copy_to_sdcard_status
at failed instead of resetting it to pending, refuting the claim that all
per-stage statuses are reset. -/
theorem c7_reset_skips_replicate_status :
    failedCopyBook.status = "failed" ∧
    (reset_statuses [failedCopyBook]).map Book.status = ["pending"] ∧
    (reset_statuses [failedCopyBook]).map Book.copy_to_sdcard_status = ["failed"] := by
  refine ⟨?_, ?_, ?_⟩ <;> decide

/-- C7 amended: for every record of the state file whose overall status is
failed or in_progress, the reset sets the overall status and the download,
ocr and docx-conversion stage statuses back to pending and removes the
error message, while the replicate (copy_to_sdcard) stage status and all
other fields are left unchanged; every record in any other status is left
entirely unchanged. -/
theorem c7_reset_amended (books : List Book) (b' : Book)
    (h : b' ∈ reset_statuses books) :
    ∃ b ∈ books,
      ((b.status = "failed" ∨ b.status = "in_progress") ∧
        b'.status = "pending" ∧
        b'.download_status = "pending" ∧
        b'.ocr_status = "pending" ∧
        b'.docx_conversion_status = "pending" ∧
        b'.error_message = none ∧
        b'.copy_to_sdcard_status = b.copy_to_sdcard_status ∧
        b'.id = b.id ∧
        b'.title_kannada = b.title_kannada ∧
        b'.local_pdf_path = b.local_pdf_path ∧
        b'.pdf_sha256_hash = b.pdf_sha256_hash) ∨
      ((b.status ≠ "failed" ∧ b.status ≠ "in_progress") ∧ b' = b) := by
  rcases List.mem_map.mp h with ⟨b, hb, rfl⟩
  refine ⟨b, hb, ?_⟩
  by_cases hc : b.status = "failed" ∨ b.status = "in_progress"
  · left
    refine ⟨hc, ?_⟩
    simp [reset_book, if_pos hc]
  · right
    rw [not_or] at hc
    refine ⟨hc, ?_⟩
    simp [reset_book, hc.1, hc.2]

/-- C7 witness for the amended theorem: one failed record and one pending
record run through the reset. -/
theorem c7_reset_amended_witness :
    ∃ b ∈ [failedCopyBook, sampleBook],
      ((b.status = "failed" ∨ b.status = "in_progress") ∧
        (reset_book failedCopyBook).status = "pending" ∧
        (reset_book failedCopyBook).download_status = "pending" ∧
        (reset_book failedCopyBook).ocr_status = "pending" ∧
        (reset_book failedCopyBook).docx_conversion_status = "pending" ∧
        (reset_book failedCopyBook).error_message = none ∧
        (reset_book failedCopyBook).copy_to_sdcard_status = b.copy_to_sdcard_status ∧
        (reset_book failedCopyBook).id = b.id ∧
        (reset_book failedCopyBook).title_kannada = b.title_kannada ∧
        (reset_book failedCopyBook).local_pdf_path = b.local_pdf_path ∧
        (reset_book failedCopyBook).pdf_sha256_hash = b.pdf_sha256_hash) ∨
      ((b.status ≠ "failed" ∧ b.status ≠ "in_progress") ∧
        reset_book failedCopyBook = b) :=
  c7_reset_amended [failedCopyBook, sampleBook] (reset_book failedCopyBook)
    (by decide)

/-! ## C10: work-queue truncation -/

/-- C10 counterexample: a negative limit is truthy in Python, so it also
truncates the queue (dropping records from the end), refuting the claim
that only a strictly positive limit truncates. -/
theorem c10_negative_limit_truncates :
    select_books [sampleBook, sampleBook2] (some (-1)) = [sampleBook] ∧
    select_books [sampleBook, sampleBook2] (some (-1)) ≠
      [sampleBook, sampleBook2].filter (fun b => b.status ≠ "completed") ∧
    ¬((0 : Int) < -1) := by
  refine ⟨?_, ?_, ?_⟩ <;> decide

/-- C10 amended: a limit of None or 0 leaves the queue of not-completed
records untruncated; a strictly positive limit keeps the first N records;
a negative limit also truncates, dropping the last records as Python
slicing does. -/
theorem c10_select_amended :
    (∀ books : List Book, select_books books none =
      books.filter (fun b => b.status ≠ "completed")) ∧
    (∀ books : List Book, select_books books (some 0) =
      books.filter (fun b => b.status ≠ "completed")) ∧
    (∀ (books : List Book) (n : Int), 0 < n →
      select_books books (some n) =
        (books.filter (fun b => b.status ≠ "completed")).take n.toNat) ∧
    (∀ (books : List Book) (n : Int), n < 0 →
      select_books books (some n) =
        (books.filter (fun b => b.status ≠ "completed")).take
          ((books.filter (fun b => b.status ≠ "completed")).length - n.natAbs)) := by
  refine ⟨fun books => rfl, fun books => by simp [select_books],
    fun books n hn => ?_, fun books n hn => ?_⟩
  · have h1 : n ≠ 0 := ne_of_gt hn
    have h2 : 0 ≤ n := le_of_lt hn
    simp [select_books, pySliceTo, h1, h2]
  · have h1 : n ≠ 0 := ne_of_lt hn
    have h2 : ¬(0 ≤ n) := not_le.mpr hn
    simp [select_books, pySliceTo, h1, h2]

/-- C10 witness for the amended theorem: a positive and a negative limit on
a two-record queue. -/
theorem c10_select_amended_witness :
    (0 : Int) < 2 ∧
    select_books [sampleBook, sampleBook2] (some 2) =
      ([sampleBook, sampleBook2].filter (fun b => b.status ≠ "completed")).take
        (2 : Int).toNat ∧
    (-1 : Int) < 0 ∧
    select_books [sampleBook, sampleBook2] (some (-1)) =
      ([sampleBook, sampleBook2].filter (fun b => b.status ≠ "completed")).take
        (([sampleBook, sampleBook2].filter
            (fun b => b.status ≠ "completed")).length - (-1 : Int).natAbs) :=
  ⟨by decide, c10_select_amended.2.2.1 [sampleBook, sampleBook2] 2 (by decide),
    by decide, c10_select_amended.2.2.2 [sampleBook, sampleBook2] (-1) (by decide)⟩

/-! ## C8: existing file with no recorded fingerprint -/

/-- C8: when the local PDF exists, its hash computation succeeds, and the
record carries no fingerprint, download_pdf performs no fetch, records the
current hash as the fingerprint, and reports success. -/
theorem c8_missing_fingerprint_trusted (b : Book) (fv : FileView)
    (net : FetchView) (h : String) (hOn : fv.onDisk = true)
    (hSha : fv.sha = some h) (hNo : b.pdf_sha256_hash = "") :
    download_pdf b fv net = ⟨{ b with pdf_sha256_hash := h }, true, false⟩ := by
  simp [download_pdf, hOn, hSha, pyTruthy, hNo]

/-- C8 witness at a concrete record with no fingerprint and an existing
file whose hash is abc; the fetch environment would fail, showing it is
never consulted. -/
theorem c8_missing_fingerprint_trusted_witness :
    download_pdf sampleBook ⟨true, some "abc"⟩ ⟨false, none⟩ =
      ⟨{ sampleBook with pdf_sha256_hash := "abc" }, true, false⟩ :=
  c8_missing_fingerprint_trusted sampleBook ⟨true, some "abc"⟩ ⟨false, none⟩
    "abc" rfl rfl rfl

/-! ## C5: OCR precondition gate -/

/-- C5: when the OCR stage is entered (its status is not completed) and the
raw PDF is missing, or a fingerprint is recorded and the current hash does
not match it, the stage and the item are immediately marked failed with the
fixed descriptive message, state is persisted, the iteration moves to the
next item, and no OCR adapter call (hence no retry) happens. -/
theorem c5_ocr_precondition_gate (b : Book) (pdfOnDisk : Bool)
    (sha : Option String) (env : Nat → OcrAttempt)
    (hGate : b.ocr_status ≠ "completed")
    (hBad : pdfOnDisk = false ∨
      (b.pdf_sha256_hash ≠ "" ∧ sha ≠ some b.pdf_sha256_hash)) :
    ocrStage b pdfOnDisk sha env =
      ({ b with
          ocr_status := "failed"
          status := "failed"
          error_message := some "PDF file missing or corrupted before OCR." },
        false, [Ev.save, Ev.sleep 2]) ∧
    (∀ e ∈ (ocrStage b pdfOnDisk sha env).2.2, e ≠ Ev.callOcr) ∧
    "PDF file missing or corrupted before OCR." ≠ "" := by
  have hcond : (¬pdfOnDisk ∨
      (pyTruthy b.pdf_sha256_hash ∧ sha ≠ some b.pdf_sha256_hash)) := by
    rcases hBad with h | ⟨h1, h2⟩
    · left; simp [h]
    · right; exact ⟨by simpa [pyTruthy] using h1, h2⟩
  have heq : ocrStage b pdfOnDisk sha env =
      ({ b with
          ocr_status := "failed"
          status := "failed"
          error_message := some "PDF file missing or corrupted before OCR." },
        false, [Ev.save, Ev.sleep 2]) := by
    rw [ocrStage, if_pos hGate, if_pos hcond]
  refine ⟨heq, ?_, by decide⟩
  rw [heq]
  show ∀ e ∈ [Ev.save, Ev.sleep 2], e ≠ Ev.callOcr
  decide

/-- C5 witness: a record whose recorded fingerprint h0 does not match the
current hash bad; the OCR environment would report success, showing it is
never consulted. -/
theorem c5_ocr_precondition_gate_witness :
    ocrStage { sampleBook with download_status := "completed", pdf_sha256_hash := "h0" }
        true (some "bad") (fun _ => ⟨some "m.md", true⟩) =
      ({ sampleBook with
          download_status := "completed"
          pdf_sha256_hash := "h0"
          ocr_status := "failed"
          status := "failed"
          error_message := some "PDF file missing or corrupted before OCR." },
        false, [Ev.save, Ev.sleep 2]) ∧
    (∀ e ∈ (ocrStage
        { sampleBook with download_status := "completed", pdf_sha256_hash := "h0" }
        true (some "bad") (fun _ => ⟨some "m.md", true⟩)).2.2, e ≠ Ev.callOcr) ∧
    "PDF file missing or corrupted before OCR." ≠ "" :=
  c5_ocr_precondition_gate
    { sampleBook with download_status := "completed", pdf_sha256_hash := "h0" }
    true (some "bad") (fun _ => ⟨some "m.md", true⟩) (by decide)
    (Or.inr ⟨by decide, by decide⟩)

/-! ## Stage executor lemmas -/

/-- A failing download_fetch leaves the record untouched. -/
theorem download_fetch_fail_book (b : Book) (net : FetchView)
    (h : (download_fetch b net).ok = false) : (download_fetch b net).book = b := by
  obtain ⟨fOk, nSha⟩ := net
  cases fOk <;> cases nSha <;> simp_all [download_fetch]

/-- A failing download_pdf call leaves the record untouched. -/
theorem download_pdf_fail_book (b : Book) (fv : FileView) (net : FetchView)
    (h : (download_pdf b fv net).ok = false) : (download_pdf b fv net).book = b := by
  obtain ⟨onDisk, sha⟩ := fv
  cases onDisk with
  | false => exact download_fetch_fail_book b net (by simpa [download_pdf] using h)
  | true =>
    cases sha with
    | none => exact download_fetch_fail_book b net (by simpa [download_pdf] using h)
    | some current =>
      by_cases h1 : pyTruthy b.pdf_sha256_hash ∧ current = b.pdf_sha256_hash
      · simp [download_pdf, h1] at h
      · by_cases h2 : pyTruthy b.pdf_sha256_hash ∧ current ≠ b.pdf_sha256_hash
        · have := download_fetch_fail_book b net (by simpa [download_pdf, h1, h2] using h)
          simpa [download_pdf, h1, h2] using this
        · simp [download_pdf, h1, h2] at h

/-- One failing download attempt prepends a call and a 5-second sleep. -/
theorem downloadAttempts_fail_step (k i : Nat) (b : Book)
    (env : Nat → FileView × FetchView)
    (h : (download_pdf b (env i).1 (env i).2).ok = false) :
    downloadAttempts (k + 1) i b env =
      ((downloadAttempts k (i + 1) b env).1,
       (downloadAttempts k (i + 1) b env).2.1,
       Ev.callDownload :: Ev.sleep 5 :: (downloadAttempts k (i + 1) b env).2.2) := by
  have hb := download_pdf_fail_book b (env i).1 (env i).2 h
  simp [downloadAttempts, h, hb]

/-- Three download attempts that all fail: the record is unchanged and the
trace is call, sleep 5, repeated three times. -/
theorem downloadAttempts_three_allFail (b : Book)
    (env : Nat → FileView × FetchView)
    (hFail : ∀ i b', (download_pdf b' (env i).1 (env i).2).ok = false) :
    downloadAttempts 3 0 b env =
      (b, false,
       [Ev.callDownload, Ev.sleep 5, Ev.callDownload, Ev.sleep 5,
        Ev.callDownload, Ev.sleep 5]) := by
  rw [show (3 : Nat) = 2 + 1 from rfl, downloadAttempts_fail_step 2 0 b env (hFail 0 b),
    show (2 : Nat) = 1 + 1 from rfl, downloadAttempts_fail_step 1 1 b env (hFail 1 b),
    show (1 : Nat) = 0 + 1 from rfl, downloadAttempts_fail_step 0 2 b env (hFail 2 b)]
  rfl

/-- One failing OCR attempt prepends a call and a 5-second sleep. -/
theorem ocrAttempts_fail_step (k i : Nat) (b : Book) (env : Nat → OcrAttempt)
    (h : (env i).ret = none ∨ (env i).retOnDisk = false) :
    ocrAttempts (k + 1) i b env =
      ((ocrAttempts k (i + 1) b env).1,
       (ocrAttempts k (i + 1) b env).2.1,
       Ev.callOcr :: Ev.sleep 5 :: (ocrAttempts k (i + 1) b env).2.2) := by
  rcases h with h | h
  · simp [ocrAttempts, h]
  · cases hr : (env i).ret with
    | none => simp [ocrAttempts, hr]
    | some p => simp [ocrAttempts, hr, h]

/-- Three OCR attempts that all fail the validation. -/
theorem ocrAttempts_three_allFail (b : Book) (env : Nat → OcrAttempt)
    (hFail : ∀ i, (env i).ret = none ∨ (env i).retOnDisk = false) :
    ocrAttempts 3 0 b env =
      (b, false,
       [Ev.callOcr, Ev.sleep 5, Ev.callOcr, Ev.sleep 5, Ev.callOcr, Ev.sleep 5]) := by
  rw [show (3 : Nat) = 2 + 1 from rfl, ocrAttempts_fail_step 2 0 b env (hFail 0),
    show (2 : Nat) = 1 + 1 from rfl, ocrAttempts_fail_step 1 1 b env (hFail 1),
    show (1 : Nat) = 0 + 1 from rfl, ocrAttempts_fail_step 0 2 b env (hFail 2)]
  rfl

/-- One failing DOCX attempt prepends a call and a 5-second sleep. -/
theorem docxAttempts_fail_step (k i : Nat) (b : Book) (env : Nat → DocxAttempt)
    (h : ((env i).reported && (env i).outOnDisk) = false) :
    docxAttempts (k + 1) i b env =
      ((docxAttempts k (i + 1) b env).1,
       (docxAttempts k (i + 1) b env).2.1,
       Ev.callDocx :: Ev.sleep 5 :: (docxAttempts k (i + 1) b env).2.2) := by
  simp [docxAttempts, h]

/-- Three DOCX attempts that all fail the validation. -/
theorem docxAttempts_three_allFail (b : Book) (env : Nat → DocxAttempt)
    (hFail : ∀ i, ((env i).reported && (env i).outOnDisk) = false) :
    docxAttempts 3 0 b env =
      (b, false,
       [Ev.callDocx, Ev.sleep 5, Ev.callDocx, Ev.sleep 5, Ev.callDocx, Ev.sleep 5]) := by
  rw [show (3 : Nat) = 2 + 1 from rfl, docxAttempts_fail_step 2 0 b env (hFail 0),
    show (2 : Nat) = 1 + 1 from rfl, docxAttempts_fail_step 1 1 b env (hFail 1),
    show (1 : Nat) = 0 + 1 from rfl, docxAttempts_fail_step 0 2 b env (hFail 2)]
  rfl

/-- A completed download stage is skipped entirely. -/
theorem downloadStage_skip (b : Book) (env : Nat → FileView × FetchView)
    (h : b.download_status = "completed") : downloadStage b env = (b, true, []) := by
  simp [downloadStage, h]

/-- A completed OCR stage is skipped entirely. -/
theorem ocrStage_skip (b : Book) (pdfOnDisk : Bool) (sha : Option String)
    (env : Nat → OcrAttempt) (h : b.ocr_status = "completed") :
    ocrStage b pdfOnDisk sha env = (b, true, []) := by
  simp [ocrStage, h]

/-- A completed DOCX stage is skipped entirely. -/
theorem docxStage_skip (b : Book) (mdOnDisk : Bool) (env : Nat → DocxAttempt)
    (h : b.docx_conversion_status = "completed") :
    docxStage b mdOnDisk env = (b, true, []) := by
  simp [docxStage, h]

/-- Download stage under an adapter that fails every invocation. -/
theorem downloadStage_allFail (b : Book) (env : Nat → FileView × FetchView)
    (hGate : b.download_status ≠ "completed")
    (hFail : ∀ i b', (download_pdf b' (env i).1 (env i).2).ok = false) :
    downloadStage b env =
      ({ b with
          download_status := "failed"
          status := "failed"
          error_message := some "PDF download failed after multiple retries." },
        false,
        [Ev.save, Ev.callDownload, Ev.sleep 5, Ev.callDownload, Ev.sleep 5,
         Ev.callDownload, Ev.sleep 5, Ev.save, Ev.sleep 2]) := by
  have h3 := downloadAttempts_three_allFail
    { b with status := "in_progress", download_status := "in_progress" } env hFail
  simp [downloadStage, hGate, h3]

/-- OCR stage under a passing precondition and an adapter whose result
never validates. -/
theorem ocrStage_allFail (b : Book) (sha : Option String)
    (env : Nat → OcrAttempt) (hGate : b.ocr_status ≠ "completed")
    (hPre : b.pdf_sha256_hash = "" ∨ sha = some b.pdf_sha256_hash)
    (hFail : ∀ i, (env i).ret = none ∨ (env i).retOnDisk = false) :
    ocrStage b true sha env =
      ({ b with
          ocr_status := "failed"
          status := "failed"
          error_message := some "OCR to Markdown failed after multiple retries." },
        false,
        [Ev.save, Ev.callOcr, Ev.sleep 5, Ev.callOcr, Ev.sleep 5,
         Ev.callOcr, Ev.sleep 5, Ev.save, Ev.sleep 2]) := by
  have hcond : ¬(¬(true : Bool) ∨
      (pyTruthy b.pdf_sha256_hash ∧ sha ≠ some b.pdf_sha256_hash)) := by
    rcases hPre with h | h <;> simp [pyTruthy, h]
  have h3 := ocrAttempts_three_allFail
    { b with status := "in_progress", ocr_status := "in_progress" } env hFail
  rw [ocrStage, if_pos hGate, if_neg hcond]
  simp [h3]

/-- DOCX stage under a passing precondition and an adapter whose result
never validates. -/
theorem docxStage_allFail (b : Book) (env : Nat → DocxAttempt)
    (hGate : b.docx_conversion_status ≠ "completed")
    (hFail : ∀ i, ((env i).reported && (env i).outOnDisk) = false) :
    docxStage b true env =
      ({ b with
          docx_conversion_status := "failed"
          status := "failed"
          error_message := some "DOCX conversion failed after multiple retries." },
        false,
        [Ev.save, Ev.callDocx, Ev.sleep 5, Ev.callDocx, Ev.sleep 5,
         Ev.callDocx, Ev.sleep 5, Ev.save, Ev.sleep 2]) := by
  have h3 := docxAttempts_three_allFail
    { b with status := "in_progress", docx_conversion_status := "in_progress" } env hFail
  simp [docxStage, hGate, h3]

/-- Every event of a download retry loop is a call or a 5-second sleep. -/
theorem downloadAttempts_events :
    ∀ (k i : Nat) (b : Book) (env : Nat → FileView × FetchView),
      ∀ e ∈ (downloadAttempts k i b env).2.2,
        e = Ev.callDownload ∨ e = Ev.sleep 5
  | 0, _, _, _ => by intro e he; simp [downloadAttempts] at he
  | k + 1, i, b, env => by
    intro e he
    by_cases hok : (download_pdf b (env i).1 (env i).2).ok
    · simp [downloadAttempts, hok] at he
      exact Or.inl he
    · rw [Bool.not_eq_true] at hok
      simp only [downloadAttempts, hok, if_neg] at he
      simp only [Bool.false_eq_true, if_false, List.mem_cons] at he
      rcases he with rfl | rfl | hmem
      · exact Or.inl rfl
      · exact Or.inr rfl
      · exact downloadAttempts_events k (i + 1) _ env e hmem

/-- Every event of an OCR retry loop is a call or a 5-second sleep. -/
theorem ocrAttempts_events :
    ∀ (k i : Nat) (b : Book) (env : Nat → OcrAttempt),
      ∀ e ∈ (ocrAttempts k i b env).2.2, e = Ev.callOcr ∨ e = Ev.sleep 5
  | 0, _, _, _ => by intro e he; simp [ocrAttempts] at he
  | k + 1, i, b, env => by
    intro e he
    cases hr : (env i).ret with
    | none =>
      simp only [ocrAttempts, hr, List.mem_cons] at he
      rcases he with rfl | rfl | hmem
      · exact Or.inl rfl
      · exact Or.inr rfl
      · exact ocrAttempts_events k (i + 1) b env e hmem
    | some p =>
      by_cases hd : (env i).retOnDisk
      · simp [ocrAttempts, hr, hd] at he
        exact Or.inl he
      · rw [Bool.not_eq_true] at hd
        simp only [ocrAttempts, hr, hd, Bool.false_eq_true, if_false,
          List.mem_cons] at he
        rcases he with rfl | rfl | hmem
        · exact Or.inl rfl
        · exact Or.inr rfl
        · exact ocrAttempts_events k (i + 1) b env e hmem

/-- Every event of a DOCX retry loop is a call or a 5-second sleep. -/
theorem docxAttempts_events :
    ∀ (k i : Nat) (b : Book) (env : Nat → DocxAttempt),
      ∀ e ∈ (docxAttempts k i b env).2.2, e = Ev.callDocx ∨ e = Ev.sleep 5
  | 0, _, _, _ => by intro e he; simp [docxAttempts] at he
  | k + 1, i, b, env => by
    intro e he
    by_cases hok : ((env i).reported && (env i).outOnDisk) = true
    · simp [docxAttempts, hok] at he
      exact Or.inl he
    · rw [Bool.not_eq_true] at hok
      simp only [docxAttempts, hok, Bool.false_eq_true, if_false,
        List.mem_cons] at he
      rcases he with rfl | rfl | hmem
      · exact Or.inl rfl
      · exact Or.inr rfl
      · exact docxAttempts_events k (i + 1) b env e hmem

/-- Alphabet of the download stage trace. -/
theorem downloadStage_events (b : Book) (env : Nat → FileView × FetchView)
    (e : Ev) (he : e ∈ (downloadStage b env).2.2) :
    e = Ev.save ∨ e = Ev.callDownload ∨ e = Ev.sleep 5 ∨ e = Ev.sleep 2 := by
  have hATT := downloadAttempts_events 3 0
    { b with status := "in_progress", download_status := "in_progress" } env
  simp only [downloadStage] at he
  split at he
  · split at he
    · rcases List.mem_cons.mp he with rfl | he2
      · exact Or.inl rfl
      · rcases List.mem_append.mp he2 with h | h
        · rcases hATT e h with rfl | rfl
          · exact Or.inr (Or.inl rfl)
          · exact Or.inr (Or.inr (Or.inl rfl))
        · rcases List.mem_singleton.mp h with rfl
          exact Or.inl rfl
    · rcases List.mem_cons.mp he with rfl | he2
      · exact Or.inl rfl
      · rcases List.mem_append.mp he2 with h | h
        · rcases hATT e h with rfl | rfl
          · exact Or.inr (Or.inl rfl)
          · exact Or.inr (Or.inr (Or.inl rfl))
        · rcases List.mem_cons.mp h with rfl | h2
          · exact Or.inl rfl
          · rcases List.mem_singleton.mp h2 with rfl
            exact Or.inr (Or.inr (Or.inr rfl))
  · simp at he

/-- Alphabet of the OCR stage trace. -/
theorem ocrStage_events (b : Book) (pdfOnDisk : Bool) (sha : Option String)
    (env : Nat → OcrAttempt) (e : Ev) (he : e ∈ (ocrStage b pdfOnDisk sha env).2.2) :
    e = Ev.save ∨ e = Ev.callOcr ∨ e = Ev.sleep 5 ∨ e = Ev.sleep 2 := by
  have hATT := ocrAttempts_events 3 0
    { b with status := "in_progress", ocr_status := "in_progress" } env
  simp only [ocrStage] at he
  split at he
  · split at he
    · rcases List.mem_cons.mp he with rfl | h2
      · exact Or.inl rfl
      · rcases List.mem_singleton.mp h2 with rfl
        exact Or.inr (Or.inr (Or.inr rfl))
    · split at he
      · rcases List.mem_cons.mp he with rfl | he2
        · exact Or.inl rfl
        · rcases List.mem_append.mp he2 with h | h
          · rcases hATT e h with rfl | rfl
            · exact Or.inr (Or.inl rfl)
            · exact Or.inr (Or.inr (Or.inl rfl))
          · rcases List.mem_singleton.mp h with rfl
            exact Or.inl rfl
      · rcases List.mem_cons.mp he with rfl | he2
        · exact Or.inl rfl
        · rcases List.mem_append.mp he2 with h | h
          · rcases hATT e h with rfl | rfl
            · exact Or.inr (Or.inl rfl)
            · exact Or.inr (Or.inr (Or.inl rfl))
          · rcases List.mem_cons.mp h with rfl | h2
            · exact Or.inl rfl
            · rcases List.mem_singleton.mp h2 with rfl
              exact Or.inr (Or.inr (Or.inr rfl))
  · simp at he

/-- Alphabet of the DOCX stage trace. -/
theorem docxStage_events (b : Book) (mdOnDisk : Bool)
    (env : Nat → DocxAttempt) (e : Ev) (he : e ∈ (docxStage b mdOnDisk env).2.2) :
    e = Ev.save ∨ e = Ev.callDocx ∨ e = Ev.sleep 5 ∨ e = Ev.sleep 2 := by
  have hATT := docxAttempts_events 3 0
    { b with status := "in_progress", docx_conversion_status := "in_progress" } env
  simp only [docxStage] at he
  split at he
  · split at he
    · rcases List.mem_cons.mp he with rfl | h2
      · exact Or.inl rfl
      · rcases List.mem_singleton.mp h2 with rfl
        exact Or.inr (Or.inr (Or.inr rfl))
    · split at he
      · rcases List.mem_cons.mp he with rfl | he2
        · exact Or.inl rfl
        · rcases List.mem_append.mp he2 with h | h
          · rcases hATT e h with rfl | rfl
            · exact Or.inr (Or.inl rfl)
            · exact Or.inr (Or.inr (Or.inl rfl))
          · rcases List.mem_singleton.mp h with rfl
            exact Or.inl rfl
      · rcases List.mem_cons.mp he with rfl | he2
        · exact Or.inl rfl
        · rcases List.mem_append.mp he2 with h | h
          · rcases hATT e h with rfl | rfl
            · exact Or.inr (Or.inl rfl)
            · exact Or.inr (Or.inr (Or.inl rfl))
          · rcases List.mem_cons.mp h with rfl | h2
            · exact Or.inl rfl
            · rcases List.mem_singleton.mp h2 with rfl
              exact Or.inr (Or.inr (Or.inr rfl))
  · simp at he

/-- Alphabet of the replicate stage trace. -/
theorem replicateStage_events (b : Book) (env : ReplicateEnv) (e : Ev)
    (he : e ∈ (replicateStage b env).2.2) :
    e = Ev.copyRaw ∨ e = Ev.copyMd ∨ e = Ev.copyDocx ∨ e = Ev.save ∨
      e = Ev.sleep 2 := by
  simp only [replicateStage] at he
  split at he <;>
  · rcases List.mem_append.mp he with h | h
    · by_cases hr : env.destBefore.raw
      · simp [hr] at h
      · simp only [hr, Bool.false_eq_true, not_false_iff, if_pos] at h
        rcases List.mem_singleton.mp h with rfl
        exact Or.inl rfl
    · rcases List.mem_cons.mp h with rfl | h
      · exact Or.inr (Or.inl rfl)
      · rcases List.mem_cons.mp h with rfl | h
        · exact Or.inr (Or.inr (Or.inl rfl))
        · rcases List.mem_cons.mp h with rfl | h
          · exact Or.inr (Or.inr (Or.inr (Or.inl rfl)))
          · rcases List.mem_singleton.mp h with rfl
            exact Or.inr (Or.inr (Or.inr (Or.inr rfl)))

/-- A DOCX retry loop with at least one attempt makes a call. -/
theorem docxAttempts_has_call (k i : Nat) (b : Book) (env : Nat → DocxAttempt)
    (hk : 0 < k) : Ev.callDocx ∈ (docxAttempts k i b env).2.2 := by
  cases k with
  | zero => omega
  | succ k =>
    by_cases hok : ((env i).reported && (env i).outOnDisk) = true
    · simp [docxAttempts, hok]
    · rw [Bool.not_eq_true] at hok
      simp [docxAttempts, hok]

/-- An entered DOCX stage with an existing markdown input calls the
converter at least once. -/
theorem docxStage_has_call (b : Book) (env : Nat → DocxAttempt)
    (hGate : b.docx_conversion_status ≠ "completed") :
    Ev.callDocx ∈ (docxStage b true env).2.2 := by
  have hc := docxAttempts_has_call 3 0
    { b with status := "in_progress", docx_conversion_status := "in_progress" } env
    (by omega)
  have hnot : ¬¬True := fun h => h trivial
  simp only [docxStage]
  rw [if_pos hGate, if_neg hnot]
  split
  · exact List.mem_cons_of_mem _ (List.mem_append.mpr (Or.inl hc))
  · exact List.mem_cons_of_mem _ (List.mem_append.mpr (Or.inl hc))

/-- The trace of a per-item iteration decomposes into the traces of the
four stages as composed by processBook. -/
theorem processBook_trace (b : Book) (env : BookEnv) (e : Ev)
    (he : e ∈ (processBook b env).2.2) :
    e ∈ (downloadStage b env.download).2.2 ∨
    e ∈ (ocrStage (downloadStage b env.download).1 env.pdfOnDiskAtOcr
          env.pdfShaAtOcr env.ocr).2.2 ∨
    e ∈ (docxStage (ocrStage (downloadStage b env.download).1 env.pdfOnDiskAtOcr
          env.pdfShaAtOcr env.ocr).1 env.mdOnDiskAtDocx env.docx).2.2 ∨
    e ∈ (replicateStage (docxStage (ocrStage (downloadStage b env.download).1
          env.pdfOnDiskAtOcr env.pdfShaAtOcr env.ocr).1 env.mdOnDiskAtDocx
          env.docx).1 env.repl).2.2 := by
  simp only [processBook] at he
  split at he
  · exact Or.inl he
  · split at he
    · simp only [List.mem_append] at he
      tauto
    · split at he
      · simp only [List.mem_append] at he
        tauto
      · simp only [List.mem_append] at he
        tauto

/-- A download_pdf call never touches the later-stage statuses. -/
theorem download_pdf_book_fields (b : Book) (fv : FileView) (net : FetchView) :
    (download_pdf b fv net).book.ocr_status = b.ocr_status ∧
    (download_pdf b fv net).book.docx_conversion_status = b.docx_conversion_status := by
  obtain ⟨onDisk, sha⟩ := fv
  obtain ⟨fOk, nSha⟩ := net
  cases onDisk <;> cases sha <;> cases fOk <;> cases nSha <;>
    simp [download_pdf, download_fetch] <;> split_ifs <;> simp

/-- The download retry loop never touches the later-stage statuses. -/
theorem downloadAttempts_book_fields :
    ∀ (k i : Nat) (b : Book) (env : Nat → FileView × FetchView),
      (downloadAttempts k i b env).1.ocr_status = b.ocr_status ∧
      (downloadAttempts k i b env).1.docx_conversion_status = b.docx_conversion_status
  | 0, _, b, _ => by simp [downloadAttempts]
  | k + 1, i, b, env => by
    have hpdf := download_pdf_book_fields b (env i).1 (env i).2
    by_cases hok : (download_pdf b (env i).1 (env i).2).ok
    · simp [downloadAttempts, hok, hpdf.1, hpdf.2]
    · rw [Bool.not_eq_true] at hok
      have ih := downloadAttempts_book_fields k (i + 1)
        (download_pdf b (env i).1 (env i).2).book env
      simp only [downloadAttempts, hok, Bool.false_eq_true, if_false]
      exact ⟨ih.1.trans hpdf.1, ih.2.trans hpdf.2⟩

/-- The download stage never touches the later-stage statuses. -/
theorem downloadStage_book_fields (b : Book) (env : Nat → FileView × FetchView) :
    (downloadStage b env).1.ocr_status = b.ocr_status ∧
    (downloadStage b env).1.docx_conversion_status = b.docx_conversion_status := by
  by_cases h : b.download_status = "completed"
  · rw [downloadStage_skip b env h]
    exact ⟨rfl, rfl⟩
  · have hATT := downloadAttempts_book_fields 3 0
      { b with status := "in_progress", download_status := "in_progress" } env
    simp only [downloadStage, if_pos h]
    split
    · exact hATT
    · exact hATT

/-- The OCR retry loop never touches the DOCX stage status. -/
theorem ocrAttempts_book_docx :
    ∀ (k i : Nat) (b : Book) (env : Nat → OcrAttempt),
      (ocrAttempts k i b env).1.docx_conversion_status = b.docx_conversion_status
  | 0, _, b, _ => by simp [ocrAttempts]
  | k + 1, i, b, env => by
    cases hr : (env i).ret with
    | none =>
      simp only [ocrAttempts, hr]
      exact ocrAttempts_book_docx k (i + 1) b env
    | some p =>
      by_cases hd : (env i).retOnDisk
      · simp [ocrAttempts, hr, hd]
      · rw [Bool.not_eq_true] at hd
        simp only [ocrAttempts, hr, hd, Bool.false_eq_true, if_false]
        exact ocrAttempts_book_docx k (i + 1) b env

/-- The OCR stage never touches the DOCX stage status. -/
theorem ocrStage_book_docx (b : Book) (pdfOnDisk : Bool) (sha : Option String)
    (env : Nat → OcrAttempt) :
    (ocrStage b pdfOnDisk sha env).1.docx_conversion_status =
      b.docx_conversion_status := by
  by_cases h : b.ocr_status = "completed"
  · rw [ocrStage_skip b pdfOnDisk sha env h]
  · have hATT := ocrAttempts_book_docx 3 0
      { b with status := "in_progress", ocr_status := "in_progress" } env
    simp only [ocrStage, if_pos h]
    split
    · rfl
    · split
      · exact hATT
      · exact hATT

/-! ## C1: stage gating -/

/-- C1 counterexample: the replicate stage is not gated on its own status.
A record with every stage already completed but an overall status that
still selects it re-runs the replicate copies (markdown and DOCX copy
events appear in its trace), refuting the claim that every stage runs only
when its own status is not completed. -/
theorem c1_replicate_not_gated_counterexample :
    allStagesDoneBook.copy_to_sdcard_status = "completed" ∧
    allStagesDoneBook.status ≠ "completed" ∧
    Ev.copyMd ∈ (processBook allStagesDoneBook happyEnv).2.2 ∧
    Ev.copyDocx ∈ (processBook allStagesDoneBook happyEnv).2.2 := by
  refine ⟨?_, ?_, ?_, ?_⟩ <;> decide

/-- C1 amended: the download, OCR and DOCX-conversion stages are each gated
on their own status — a completed stage contributes no adapter call — and
an item whose download and OCR stages are completed re-enters at the
conversion stage (the converter is invoked when that stage is not completed
and its markdown input exists); only the replicate stage runs
unconditionally. -/
theorem c1_stage_gating_amended (b : Book) (env : BookEnv) :
    (b.download_status = "completed" →
      Ev.callDownload ∉ (processBook b env).2.2) ∧
    (b.ocr_status = "completed" → Ev.callOcr ∉ (processBook b env).2.2) ∧
    (b.docx_conversion_status = "completed" →
      Ev.callDocx ∉ (processBook b env).2.2) ∧
    (b.download_status = "completed" → b.ocr_status = "completed" →
      b.docx_conversion_status ≠ "completed" → env.mdOnDiskAtDocx = true →
      Ev.callDocx ∈ (processBook b env).2.2) := by
  refine ⟨?_, ?_, ?_, ?_⟩
  · intro h hmem
    rcases processBook_trace b env _ hmem with h1 | h1 | h1 | h1
    · rw [downloadStage_skip b env.download h] at h1
      simp at h1
    · rcases ocrStage_events _ _ _ _ _ h1 with h2 | h2 | h2 | h2 <;> simp at h2
    · rcases docxStage_events _ _ _ _ h1 with h2 | h2 | h2 | h2 <;> simp at h2
    · rcases replicateStage_events _ _ _ h1 with h2 | h2 | h2 | h2 | h2 <;>
        simp at h2
  · intro h hmem
    rcases processBook_trace b env _ hmem with h1 | h1 | h1 | h1
    · rcases downloadStage_events _ _ _ h1 with h2 | h2 | h2 | h2 <;> simp at h2
    · have hocr : (downloadStage b env.download).1.ocr_status = "completed" :=
        (downloadStage_book_fields b env.download).1.trans h
      rw [ocrStage_skip _ _ _ _ hocr] at h1
      simp at h1
    · rcases docxStage_events _ _ _ _ h1 with h2 | h2 | h2 | h2 <;> simp at h2
    · rcases replicateStage_events _ _ _ h1 with h2 | h2 | h2 | h2 | h2 <;>
        simp at h2
  · intro h hmem
    rcases processBook_trace b env _ hmem with h1 | h1 | h1 | h1
    · rcases downloadStage_events _ _ _ h1 with h2 | h2 | h2 | h2 <;> simp at h2
    · rcases ocrStage_events _ _ _ _ _ h1 with h2 | h2 | h2 | h2 <;> simp at h2
    · have hdocx : (ocrStage (downloadStage b env.download).1 env.pdfOnDiskAtOcr
          env.pdfShaAtOcr env.ocr).1.docx_conversion_status = "completed" :=
        (ocrStage_book_docx _ _ _ _).trans
          ((downloadStage_book_fields b env.download).2.trans h)
      rw [docxStage_skip _ _ _ hdocx] at h1
      simp at h1
    · rcases replicateStage_events _ _ _ h1 with h2 | h2 | h2 | h2 | h2 <;>
        simp at h2
  · intro hdl hocr hdocx hmd
    have h1 := downloadStage_skip b env.download hdl
    have h2 := ocrStage_skip b env.pdfOnDiskAtOcr env.pdfShaAtOcr env.ocr hocr
    have hc := docxStage_has_call b env.docx hdocx
    simp only [processBook, h1, h2, hmd]
    norm_num
    split
    · exact hc
    · exact List.mem_append.mpr (Or.inl hc)

/-- C1 witness for the amended theorem: a record with download and OCR
completed re-enters at the conversion stage and calls no earlier adapter. -/
theorem c1_stage_gating_amended_witness :
    (Ev.callDownload ∉
      (processBook { sampleBook with download_status := "completed", ocr_status := "completed" } happyEnv).2.2) ∧
    (Ev.callOcr ∉
      (processBook { sampleBook with download_status := "completed", ocr_status := "completed" } happyEnv).2.2) ∧
    (Ev.callDocx ∈
      (processBook { sampleBook with download_status := "completed", ocr_status := "completed" } happyEnv).2.2) :=
  ⟨(c1_stage_gating_amended _ happyEnv).1 rfl,
   (c1_stage_gating_amended _ happyEnv).2.1 rfl,
   (c1_stage_gating_amended _ happyEnv).2.2.2 rfl rfl (by decide) rfl⟩

/-! ## C2: retry exhaustion -/

/-- C2: for each retried stage (download, OCR, DOCX conversion), an adapter
that fails every invocation — including a reported success whose output
file is missing, which the validation treats as a failure — causes exactly
3 attempts with a 5-second sleep after each failed attempt (hence 5 seconds
between consecutive attempts), then marks the stage and the item failed
with a fixed non-empty error message, persists, and ends the iteration so
the run continues with the next item; the run loop always processes every
selected item. -/
theorem c2_retry_exhaustion :
    (∀ (b : Book) (env : BookEnv),
      b.download_status ≠ "completed" →
      (∀ i b', (download_pdf b' (env.download i).1 (env.download i).2).ok = false) →
      processBook b env =
        ({ b with
            download_status := "failed"
            status := "failed"
            error_message := some "PDF download failed after multiple retries." },
         env.repl.destBefore,
         [Ev.save, Ev.callDownload, Ev.sleep 5, Ev.callDownload, Ev.sleep 5,
          Ev.callDownload, Ev.sleep 5, Ev.save, Ev.sleep 2]) ∧
        "PDF download failed after multiple retries." ≠ "") ∧
    (∀ (b : Book) (env : BookEnv),
      b.download_status = "completed" →
      b.ocr_status ≠ "completed" →
      env.pdfOnDiskAtOcr = true →
      (b.pdf_sha256_hash = "" ∨ env.pdfShaAtOcr = some b.pdf_sha256_hash) →
      (∀ i, (env.ocr i).ret = none ∨ (env.ocr i).retOnDisk = false) →
      processBook b env =
        ({ b with
            ocr_status := "failed"
            status := "failed"
            error_message := some "OCR to Markdown failed after multiple retries." },
         env.repl.destBefore,
         [Ev.save, Ev.callOcr, Ev.sleep 5, Ev.callOcr, Ev.sleep 5,
          Ev.callOcr, Ev.sleep 5, Ev.save, Ev.sleep 2]) ∧
        "OCR to Markdown failed after multiple retries." ≠ "") ∧
    (∀ (b : Book) (env : BookEnv),
      b.download_status = "completed" →
      b.ocr_status = "completed" →
      b.docx_conversion_status ≠ "completed" →
      env.mdOnDiskAtDocx = true →
      (∀ i, ((env.docx i).reported && (env.docx i).outOnDisk) = false) →
      processBook b env =
        ({ b with
            docx_conversion_status := "failed"
            status := "failed"
            error_message := some "DOCX conversion failed after multiple retries." },
         env.repl.destBefore,
         [Ev.save, Ev.callDocx, Ev.sleep 5, Ev.callDocx, Ev.sleep 5,
          Ev.callDocx, Ev.sleep 5, Ev.save, Ev.sleep 2]) ∧
        "DOCX conversion failed after multiple retries." ≠ "") ∧
    (∀ items : List (Book × BookEnv), (processAll items).length = items.length) := by
  refine ⟨?_, ?_, ?_, ?_⟩
  · intro b env hGate hFail
    have hd := downloadStage_allFail b env.download hGate hFail
    refine ⟨?_, by decide⟩
    simp [processBook, hd]
  · intro b env hdl hGate hOn hPre hFail
    have h1 := downloadStage_skip b env.download hdl
    have h2 := ocrStage_allFail b env.pdfShaAtOcr env.ocr hGate hPre hFail
    refine ⟨?_, by decide⟩
    simp [processBook, h1, hOn, h2]
  · intro b env hdl hocr hGate hmd hFail
    have h1 := downloadStage_skip b env.download hdl
    have h2 := ocrStage_skip b env.pdfOnDiskAtOcr env.pdfShaAtOcr env.ocr hocr
    have h3 := docxStage_allFail b env.docx hGate hFail
    refine ⟨?_, by decide⟩
    simp [processBook, h1, h2, hmd, h3]
  · intro items
    induction items with
    | nil => rfl
    | cons hd tl ih => simp [processAll, ih]

/-- C2 witness: the always-failing environment exercised on the three
scenarios (download never fetches; OCR reports a path that is missing on
disk; pandoc reports success but the DOCX file is missing), plus the run
loop over a one-item queue. -/
theorem c2_retry_exhaustion_witness :
    processBook sampleBook alwaysFailEnv =
      ({ sampleBook with
          download_status := "failed"
          status := "failed"
          error_message := some "PDF download failed after multiple retries." },
       alwaysFailEnv.repl.destBefore,
       [Ev.save, Ev.callDownload, Ev.sleep 5, Ev.callDownload, Ev.sleep 5,
        Ev.callDownload, Ev.sleep 5, Ev.save, Ev.sleep 2]) ∧
    processBook { sampleBook with download_status := "completed" } alwaysFailEnv =
      ({ sampleBook with
          download_status := "completed"
          ocr_status := "failed"
          status := "failed"
          error_message := some "OCR to Markdown failed after multiple retries." },
       alwaysFailEnv.repl.destBefore,
       [Ev.save, Ev.callOcr, Ev.sleep 5, Ev.callOcr, Ev.sleep 5,
        Ev.callOcr, Ev.sleep 5, Ev.save, Ev.sleep 2]) ∧
    processBook { sampleBook with download_status := "completed", ocr_status := "completed" } alwaysFailEnv =
      ({ sampleBook with
          download_status := "completed"
          ocr_status := "completed"
          docx_conversion_status := "failed"
          status := "failed"
          error_message := some "DOCX conversion failed after multiple retries." },
       alwaysFailEnv.repl.destBefore,
       [Ev.save, Ev.callDocx, Ev.sleep 5, Ev.callDocx, Ev.sleep 5,
        Ev.callDocx, Ev.sleep 5, Ev.save, Ev.sleep 2]) ∧
    (processAll [(sampleBook, alwaysFailEnv)]).length = 1 :=
  ⟨(c2_retry_exhaustion.1 sampleBook alwaysFailEnv (by decide)
      (fun _ _ => rfl)).1,
   (c2_retry_exhaustion.2.1 { sampleBook with download_status := "completed" }
      alwaysFailEnv rfl (by decide) rfl (Or.inl rfl) (fun _ => Or.inr rfl)).1,
   (c2_retry_exhaustion.2.2.1 { sampleBook with download_status := "completed", ocr_status := "completed" }
      alwaysFailEnv rfl rfl (by decide) rfl (fun _ => rfl)).1,
   c2_retry_exhaustion.2.2.2 [(sampleBook, alwaysFailEnv)]⟩

/-! ## C4: replicate stage semantics -/

/-- C4 counterexample: when exactly one of the two decisive copies fails,
the error message is the same fixed generic text whichever artifact is
missing, and that text mentions neither artifact path — so the specific
missing artifact is not noted in error_message, refuting that part of the
claim. -/
theorem c4_generic_error_message_counterexample :
    (replicateStage sampleBook replEnvMdFails).1.status = "failed" ∧
    (replicateStage sampleBook replEnvDocxFails).1.status = "failed" ∧
    (replicateStage sampleBook replEnvMdFails).1.error_message =
      some "File copying to SD card failed." ∧
    (replicateStage sampleBook replEnvMdFails).1.error_message =
      (replicateStage sampleBook replEnvDocxFails).1.error_message ∧
    ¬(sampleBook.local_md_path.toList <:+:
        "File copying to SD card failed.".toList) ∧
    ¬(sampleBook.local_docx_path.toList <:+:
        "File copying to SD card failed.".toList) := by
  refine ⟨?_, ?_, ?_, ?_, ?_, ?_⟩ <;> decide

/-- C4 amended: the replicate stage and the item become completed exactly
when both the markdown and the DOCX copy succeed; on partial success both
are marked failed and error_message becomes the fixed generic text (or a
pre-existing error_message is kept) without naming the missing artifact;
a successfully copied artifact stays at the destination (no rollback); and
the best-effort raw-PDF copy never affects the resulting record. -/
theorem c4_replicate_amended (b : Book) (env : ReplicateEnv) :
    (((replicateStage b env).1.copy_to_sdcard_status = "completed" ∧
        (replicateStage b env).1.status = "completed") ↔
      (copy_to_phone_storage env.mdSrcOnDisk env.cpMdOk = true ∧
        copy_to_phone_storage env.docxSrcOnDisk env.cpDocxOk = true)) ∧
    (¬(copy_to_phone_storage env.mdSrcOnDisk env.cpMdOk = true ∧
        copy_to_phone_storage env.docxSrcOnDisk env.cpDocxOk = true) →
      (replicateStage b env).1.copy_to_sdcard_status = "failed" ∧
      (replicateStage b env).1.status = "failed" ∧
      (replicateStage b env).1.error_message =
        some (b.error_message.getD "File copying to SD card failed.")) ∧
    (copy_to_phone_storage env.mdSrcOnDisk env.cpMdOk = true →
      (replicateStage b env).2.1.md = true) ∧
    (copy_to_phone_storage env.docxSrcOnDisk env.cpDocxOk = true →
      (replicateStage b env).2.1.docx = true) ∧
    (∀ env2 : ReplicateEnv,
      env2.mdSrcOnDisk = env.mdSrcOnDisk → env2.cpMdOk = env.cpMdOk →
      env2.docxSrcOnDisk = env.docxSrcOnDisk → env2.cpDocxOk = env.cpDocxOk →
      (replicateStage b env2).1 = (replicateStage b env).1) := by
  refine ⟨?_, ?_, ?_, ?_, ?_⟩
  · rcases Bool.eq_false_or_eq_true
        (copy_to_phone_storage env.mdSrcOnDisk env.cpMdOk) with hmd | hmd <;>
      rcases Bool.eq_false_or_eq_true
        (copy_to_phone_storage env.docxSrcOnDisk env.cpDocxOk) with hdx | hdx <;>
      simp [replicateStage, hmd, hdx]
  · rcases Bool.eq_false_or_eq_true
        (copy_to_phone_storage env.mdSrcOnDisk env.cpMdOk) with hmd | hmd <;>
      rcases Bool.eq_false_or_eq_true
        (copy_to_phone_storage env.docxSrcOnDisk env.cpDocxOk) with hdx | hdx <;>
      intro hfail <;>
      simp [replicateStage, hmd, hdx] at hfail ⊢
  · rcases Bool.eq_false_or_eq_true
        (copy_to_phone_storage env.mdSrcOnDisk env.cpMdOk) with hmd | hmd <;>
      rcases Bool.eq_false_or_eq_true
        (copy_to_phone_storage env.docxSrcOnDisk env.cpDocxOk) with hdx | hdx <;>
      intro h <;>
      simp [replicateStage, hmd, hdx] at h ⊢
  · rcases Bool.eq_false_or_eq_true
        (copy_to_phone_storage env.mdSrcOnDisk env.cpMdOk) with hmd | hmd <;>
      rcases Bool.eq_false_or_eq_true
        (copy_to_phone_storage env.docxSrcOnDisk env.cpDocxOk) with hdx | hdx <;>
      intro h <;>
      simp [replicateStage, hmd, hdx] at h ⊢
  · intro env2 e1 e2 e3 e4
    rcases Bool.eq_false_or_eq_true
        (copy_to_phone_storage env.mdSrcOnDisk env.cpMdOk) with hmd | hmd <;>
      rcases Bool.eq_false_or_eq_true
        (copy_to_phone_storage env.docxSrcOnDisk env.cpDocxOk) with hdx | hdx <;>
      simp [replicateStage, e1, e2, e3, e4, hmd, hdx]

/-- C4 witness for the amended theorem: the markdown copy fails while the
DOCX copy succeeds — the item fails with the generic message and the DOCX
artifact stays at the destination. -/
theorem c4_replicate_amended_witness :
    ((replicateStage sampleBook replEnvMdFails).1.copy_to_sdcard_status = "failed" ∧
      (replicateStage sampleBook replEnvMdFails).1.status = "failed" ∧
      (replicateStage sampleBook replEnvMdFails).1.error_message =
        some (sampleBook.error_message.getD "File copying to SD card failed.")) ∧
    (replicateStage sampleBook replEnvMdFails).2.1.docx = true :=
  ⟨(c4_replicate_amended sampleBook replEnvMdFails).2.1 (by decide),
   (c4_replicate_amended sampleBook replEnvMdFails).2.2.2.1 (by decide)⟩

/-! ## C9: chunked OCR lemmas -/

/-- Arithmetic of the ceiling division used by the chunk start pages. -/
theorem step_mul_lt_of_lt_ceil {k total step : Nat} (hstep : 0 < step)
    (hk : k < (total + step - 1) / step) : step * k < total := by
  have h1 : k + 1 ≤ (total + step - 1) / step := hk
  have h2 : (k + 1) * step ≤ total + step - 1 :=
    (Nat.le_div_iff_mul_le hstep).mp h1
  have h3 : (k + 1) * step = step * k + step := by ring
  omega

/-- The chunk count times the chunk size covers the page count. -/
theorem ceil_mul_ge {total step : Nat} (hstep : 0 < step) :
    total ≤ ((total + step - 1) / step) * step := by
  have hdm := Nat.div_add_mod (total + step - 1) step
  have hlt := Nat.mod_lt (total + step - 1) hstep
  have hc : ((total + step - 1) / step) * step =
      step * ((total + step - 1) / step) := Nat.mul_comm _ _
  omega

/-- Converse bound: a start page inside the document lies in the range. -/
theorem lt_ceil_of_step_mul_lt {k total step : Nat} (hstep : 0 < step)
    (hk : step * k < total) : k < (total + step - 1) / step := by
  by_contra h
  push_neg at h
  have h2 := @ceil_mul_ge total step hstep
  have h3 : ((total + step - 1) / step) * step ≤ k * step :=
    Nat.mul_le_mul_right step h
  have h4 : k * step = step * k := Nat.mul_comm _ _
  omega

/-- Each chunk is non-empty, at most a chunk size long, stays inside the
document, and a chunk that stops short of the last page is followed by the
chunk starting exactly where it ended. -/
theorem split_bounds_cover (total step : Nat) (hstep : 0 < step) :
    ∀ p ∈ split_bounds total step,
      p.1 < p.2 ∧ p.2 - p.1 ≤ step ∧ p.2 ≤ total ∧
      (p.2 < total → (p.2, min (p.2 + step) total) ∈ split_bounds total step) := by
  intro p hp
  simp only [split_bounds, pyRangeStep, List.mem_map] at hp
  obtain ⟨s, hs, rfl⟩ := hp
  rw [List.mem_range'] at hs
  obtain ⟨i, hi, rfl⟩ := hs
  have hlt : step * i < total := step_mul_lt_of_lt_ceil hstep hi
  have hmin1 : min (0 + step * i + step) total ≤ 0 + step * i + step :=
    Nat.min_le_left _ _
  have hmin2 : min (0 + step * i + step) total ≤ total := Nat.min_le_right _ _
  have hmin3 : 0 + step * i < min (0 + step * i + step) total := by
    apply lt_min <;> omega
  refine ⟨hmin3, by omega, hmin2, ?_⟩
  intro hlt2
  have heq : min (0 + step * i + step) total = step * i + step := by
    rcases Nat.lt_or_ge (step * i + step) total with h | h
    · rw [show 0 + step * i + step = step * i + step by omega]
      exact Nat.min_eq_left (Nat.le_of_lt h)
    · have hmt : min (0 + step * i + step) total = total := by
        rw [show 0 + step * i + step = step * i + step by omega]
        exact Nat.min_eq_right h
      omega
  rw [heq]
  simp only [split_bounds, pyRangeStep, List.mem_map]
  refine ⟨step * i + step, ?_, rfl⟩
  rw [List.mem_range']
  refine ⟨i + 1, ?_, by ring⟩
  exact lt_ceil_of_step_mul_lt hstep
    (by have hr : step * (i + 1) = step * i + step := by ring
        omega)

/-- Consecutive chunks chain: every chunk ends where the next begins. -/
theorem split_bounds_chain (total step : Nat) (hstep : 0 < step) :
    List.Chain' (fun p q : Nat × Nat => p.2 = q.1) (split_bounds total step) := by
  rw [List.chain'_iff_get]
  intro i hi
  have hlen : (split_bounds total step).length = (total + step - 1) / step := by
    simp [split_bounds, pyRangeStep]
  rw [hlen] at hi
  simp only [split_bounds, pyRangeStep, List.get_eq_getElem, List.getElem_map,
    List.getElem_range']
  have hi1 : i + 1 < (total + step - 1) / step := by omega
  have hlt : step * (i + 1) < total := step_mul_lt_of_lt_ceil hstep hi1
  have hr : step * (i + 1) = step * i + step := by ring
  have hm : min (0 + step * i + step) total = step * i + step := by
    rw [show 0 + step * i + step = step * i + step by omega]
    exact Nat.min_eq_left (by omega)
  rw [hm]
  omega

/-- With a positive page count the first chunk starts at page 0. -/
theorem split_bounds_head (total step : Nat) (hstep : 0 < step)
    (htot : 0 < total) :
    (split_bounds total step).head? = some (0, min step total) := by
  have hn : 0 < (total + step - 1) / step := Nat.div_pos (by omega) hstep
  obtain ⟨m, hm⟩ := Nat.exists_eq_succ_of_ne_zero (Nat.pos_iff_ne_zero.mp hn)
  unfold split_bounds pyRangeStep
  rw [hm, List.range'_succ]
  simp

/-- The chunk loop on an all-successful result list collects every content
in order and makes one OCR call per chunk. -/
theorem chunkLoop_map_some : ∀ mds : List String,
    chunkLoop (mds.map some) = (mds, true, mds.length)
  | [] => rfl
  | md :: rest => by
    simp [chunkLoop, chunkLoop_map_some rest]

/-- The chunk loop fails whenever any chunk result is a failure. -/
theorem chunkLoop_none : ∀ rs : List (Option String), none ∈ rs →
    (chunkLoop rs).2.1 = false
  | r :: rest, h => by
    cases r with
    | none => simp [chunkLoop]
    | some md =>
      rcases List.mem_cons.mp h with h1 | h1
      · simp at h1
      · simp [chunkLoop, chunkLoop_none rest h1]

/-! ## C9: chunked OCR -/

/-- C9: for a readable PDF over the 500-page limit, the chunk bounds are
consecutive (each ends where the next starts, the first starts at page 0,
any chunk ending before the last page has a successor) and each is between
1 and 500 pages; when every chunk's OCR succeeds, the requested output file
receives the chunk contents concatenated in order, each followed by the
separator, every chunk is OCRed, all intermediate chunk PDFs and chunk
markdown files are deleted, and the output path is returned; if any chunk
fails, the call returns none. -/
theorem c9_chunked_ocr (pageCount : Nat) (outputMdPath : String)
    (chunkResults : List (Option String)) (singleResult : Option String)
    (h500 : SARVAM_AI_PAGE_LIMIT < pageCount)
    (hLen : chunkResults.length =
      (split_bounds pageCount SARVAM_AI_PAGE_LIMIT).length) :
    (∀ p ∈ split_bounds pageCount SARVAM_AI_PAGE_LIMIT,
      p.1 < p.2 ∧ p.2 - p.1 ≤ SARVAM_AI_PAGE_LIMIT ∧ p.2 ≤ pageCount ∧
      (p.2 < pageCount →
        (p.2, min (p.2 + SARVAM_AI_PAGE_LIMIT) pageCount) ∈
          split_bounds pageCount SARVAM_AI_PAGE_LIMIT)) ∧
    List.Chain' (fun p q : Nat × Nat => p.2 = q.1)
      (split_bounds pageCount SARVAM_AI_PAGE_LIMIT) ∧
    (split_bounds pageCount SARVAM_AI_PAGE_LIMIT).head? =
      some (0, SARVAM_AI_PAGE_LIMIT) ∧
    (∀ mds : List String, chunkResults = mds.map some →
      ocr_to_markdown_run pageCount true none true chunkResults outputMdPath
          singleResult =
        ⟨some outputMdPath, some (mergeChunks mds),
         (split_bounds pageCount SARVAM_AI_PAGE_LIMIT).length,
         (split_bounds pageCount SARVAM_AI_PAGE_LIMIT).length,
         (split_bounds pageCount SARVAM_AI_PAGE_LIMIT).length⟩) ∧
    (none ∈ chunkResults →
      (ocr_to_markdown_run pageCount true none true chunkResults outputMdPath
          singleResult).retPath = none ∧
      (ocr_to_markdown_run pageCount true none true chunkResults outputMdPath
          singleResult).outContent = none) := by
  have hstep : 0 < SARVAM_AI_PAGE_LIMIT := by decide
  refine ⟨split_bounds_cover pageCount SARVAM_AI_PAGE_LIMIT hstep,
    split_bounds_chain pageCount SARVAM_AI_PAGE_LIMIT hstep, ?_, ?_, ?_⟩
  · rw [split_bounds_head pageCount SARVAM_AI_PAGE_LIMIT hstep (by omega)]
    rw [Nat.min_eq_left (Nat.le_of_lt h500)]
  · intro mds hmds
    subst hmds
    have hlen2 : mds.length =
        (split_bounds pageCount SARVAM_AI_PAGE_LIMIT).length := by
      simpa using hLen
    have hcl := chunkLoop_map_some mds
    simp [ocr_to_markdown_run, h500, hcl, hlen2]
  · intro hnone
    have hcl := chunkLoop_none chunkResults hnone
    constructor <;> simp [ocr_to_markdown_run, h500, hcl]

/-- C9 witness: a 1200-page document splits into three 500/500/200-page
chunks; with three successful chunk contents the merged output and full
cleanup result, with a failing middle chunk the call returns none. -/
theorem c9_chunked_ocr_witness :
    ocr_to_markdown_run 1200 true none true [some "A", some "B", some "C"]
        "out.md" none =
      ⟨some "out.md", some (mergeChunks ["A", "B", "C"]),
       (split_bounds 1200 SARVAM_AI_PAGE_LIMIT).length,
       (split_bounds 1200 SARVAM_AI_PAGE_LIMIT).length,
       (split_bounds 1200 SARVAM_AI_PAGE_LIMIT).length⟩ ∧
    ((ocr_to_markdown_run 1200 true none true [some "A", none, some "C"]
        "out.md" none).retPath = none ∧
     (ocr_to_markdown_run 1200 true none true [some "A", none, some "C"]
        "out.md" none).outContent = none) :=
  ⟨(c9_chunked_ocr 1200 "out.md" [some "A", some "B", some "C"] none
      (by decide) (by decide)).2.2.2.1 ["A", "B", "C"] rfl,
   (c9_chunked_ocr 1200 "out.md" [some "A", none, some "C"] none
      (by decide) (by decide)).2.2.2.2 (by decide)⟩

/-! ## C3: merge lemmas -/

/-- An update never changes the id. -/
theorem updateBook_id (b nb : Book) : (updateBook b nb).id = b.id := rfl

/-- Updating twice from the same scraped item is the same as updating
once. -/
theorem updateBook_idem (b nb : Book) :
    updateBook (updateBook b nb) nb = updateBook b nb := by
  unfold updateBook
  split_ifs <;> simp_all [pyTruthy]

/-- Updating a freshly inserted record from itself changes nothing. -/
theorem updateBook_self (nb : Book) : updateBook nb nb = nb := by
  unfold updateBook
  split_ifs <;> rfl

/-- Ids after one merge step. -/
theorem ids_mergeOne (books : List Book) (nb : Book) :
    ids (mergeOne books nb) =
      if nb.id ∈ ids books then ids books else ids books ++ [nb.id] := by
  by_cases h : nb.id ∈ ids books
  · rw [if_pos h]
    unfold mergeOne
    rw [if_pos h]
    unfold ids
    rw [List.map_map]
    exact List.map_congr_left fun b _ => by
      dsimp
      split <;> rfl
  · rw [if_neg h]
    unfold mergeOne
    rw [if_neg h]
    unfold ids
    rw [List.map_append]
    rfl

/-- The merged item's id is present after its merge step. -/
theorem mem_ids_mergeOne_self (books : List Book) (nb : Book) :
    nb.id ∈ ids (mergeOne books nb) := by
  rw [ids_mergeOne]
  split
  · assumption
  · exact List.mem_append.mpr (Or.inr (List.mem_singleton.mpr rfl))

/-- A merge step never removes an id. -/
theorem mem_ids_mergeOne_mono (books : List Book) (m : Book) (x : String)
    (h : x ∈ ids books) : x ∈ ids (mergeOne books m) := by
  rw [ids_mergeOne]
  split
  · exact h
  · exact List.mem_append.mpr (Or.inl h)

/-- The merge loop never removes an id. -/
theorem mem_ids_foldl_mono (scraped : List Book) :
    ∀ (books : List Book) (x : String), x ∈ ids books →
      x ∈ ids (scraped.foldl mergeOne books) := by
  induction scraped with
  | nil => intro books x h; exact h
  | cons m rest ih =>
    intro books x h
    simp only [List.foldl_cons]
    exact ih (mergeOne books m) x (mem_ids_mergeOne_mono books m x h)

/-- After the merge loop, every scraped id is present. -/
theorem mem_ids_foldl_of_mem (scraped : List Book) :
    ∀ (books : List Book) (nb : Book), nb ∈ scraped →
      nb.id ∈ ids (scraped.foldl mergeOne books) := by
  induction scraped with
  | nil => intro _ _ h; simp at h
  | cons m rest ih =>
    intro books nb h
    simp only [List.foldl_cons]
    rcases List.mem_cons.mp h with rfl | h1
    · exact mem_ids_foldl_mono rest (mergeOne books nb) nb.id
        (mem_ids_mergeOne_self books nb)
    · exact ih (mergeOne books m) nb h1

/-- A merge step preserves uniqueness of ids. -/
theorem nodup_ids_mergeOne (books : List Book) (nb : Book)
    (h : (ids books).Nodup) : (ids (mergeOne books nb)).Nodup := by
  rw [ids_mergeOne]
  split
  · exact h
  · rename_i hni
    simp [List.nodup_append, h, hni]

/-- The merge loop preserves uniqueness of ids. -/
theorem nodup_ids_foldl (scraped : List Book) :
    ∀ books : List Book, (ids books).Nodup →
      (ids (scraped.foldl mergeOne books)).Nodup := by
  induction scraped with
  | nil => intro _ h; exact h
  | cons m rest ih =>
    intro books h
    simp only [List.foldl_cons]
    exact ih (mergeOne books m) (nodup_ids_mergeOne books m h)

/-- The sort of line 202 is a permutation. -/
theorem perm_sortBooks (l : List Book) : List.Perm (sortBooks l) l :=
  List.perm_insertionSort bookLE l

/-- Ids are permuted by the sort. -/
theorem ids_perm_sortBooks (l : List Book) :
    List.Perm (ids (sortBooks l)) (ids l) :=
  (perm_sortBooks l).map Book.id

/-- The sort preserves uniqueness of ids. -/
theorem nodup_ids_sortBooks (l : List Book) (h : (ids l).Nodup) :
    (ids (sortBooks l)).Nodup :=
  ((ids_perm_sortBooks l).nodup_iff).mpr h

/-- After merging an item, the record carrying its id is update-stable. -/
theorem fixedFor_mergeOne_self (books : List Book) (nb : Book) :
    FixedFor nb (mergeOne books nb) := by
  intro b hb hid
  unfold mergeOne at hb
  split at hb
  · rcases List.mem_map.mp hb with ⟨b0, hb0, rfl⟩
    by_cases h0 : b0.id = nb.id
    · simp only [if_pos h0]
      exact updateBook_idem b0 nb
    · simp only [if_neg h0] at hid ⊢
      exact absurd hid h0
  · rename_i hni
    rcases List.mem_append.mp hb with h1 | h1
    · have : nb.id ∈ ids books := by
        unfold ids
        rw [← hid]
        exact List.mem_map_of_mem Book.id h1
      exact absurd this hni
    · rw [List.mem_singleton.mp h1]
      exact updateBook_self nb

/-- Merging an item with a different id preserves update-stability. -/
theorem fixedFor_mergeOne_preserve (books : List Book) (nb m : Book)
    (hne : m.id ≠ nb.id) (hf : FixedFor nb books) :
    FixedFor nb (mergeOne books m) := by
  intro b hb hid
  unfold mergeOne at hb
  split at hb
  · rcases List.mem_map.mp hb with ⟨b0, hb0, rfl⟩
    by_cases h0 : b0.id = m.id
    · simp only [if_pos h0] at hid ⊢
      have hid' : b0.id = nb.id := hid
      exact absurd (h0.symm.trans hid') hne
    · simp only [if_neg h0] at hid ⊢
      exact hf b0 hb0 hid
  · rcases List.mem_append.mp hb with h1 | h1
    · exact hf b h1 hid
    · rcases List.mem_singleton.mp h1 with rfl
      exact absurd hid hne

/-- Merging items with different ids preserves update-stability. -/
theorem fixedFor_foldl_preserve (rest : List Book) :
    ∀ (books : List Book) (nb : Book), (∀ m ∈ rest, m.id ≠ nb.id) →
      FixedFor nb books → FixedFor nb (rest.foldl mergeOne books) := by
  induction rest with
  | nil => intro books nb _ hf; exact hf
  | cons m tail ih =>
    intro books nb hall hf
    simp only [List.foldl_cons]
    exact ih (mergeOne books m) nb
      (fun x hx => hall x (List.mem_cons_of_mem m hx))
      (fixedFor_mergeOne_preserve books nb m (hall m (List.mem_cons_self m tail)) hf)

/-- After the whole merge loop over a duplicate-free scraped list, the
record carrying each scraped id is update-stable. -/
theorem fixedFor_foldl (scraped books : List Book) (nb : Book)
    (hS : (ids scraped).Nodup) (hmem : nb ∈ scraped) :
    FixedFor nb (scraped.foldl mergeOne books) := by
  obtain ⟨l1, l2, rfl⟩ := List.append_of_mem hmem
  rw [List.foldl_append, List.foldl_cons]
  have hS2 : (ids (l1 ++ nb :: l2)).Nodup := hS
  unfold ids at hS2
  rw [List.map_append, List.map_cons] at hS2
  have h3 := (List.nodup_cons.mp hS2.of_append_right).1
  have h2 : ∀ m ∈ l2, m.id ≠ nb.id := by
    intro m hm hcontra
    exact h3 (hcontra ▸ List.mem_map_of_mem Book.id hm)
  exact fixedFor_foldl_preserve l2 _ nb h2
    (fixedFor_mergeOne_self (l1.foldl mergeOne books) nb)

/-- The merge loop is the identity on a store that already contains every
scraped id with an update-stable record. -/
theorem foldl_mergeOne_fixed (scraped : List Book) :
    ∀ books : List Book,
      (∀ nb ∈ scraped, nb.id ∈ ids books ∧ FixedFor nb books) →
      scraped.foldl mergeOne books = books := by
  induction scraped with
  | nil => intro books _; rfl
  | cons nb rest ih =>
    intro books h
    have hnb := h nb (List.mem_cons_self nb rest)
    have hone : mergeOne books nb = books := by
      unfold mergeOne
      rw [if_pos hnb.1]
      have hpt : ∀ b ∈ books, (if b.id = nb.id then updateBook b nb else b) = b := by
        intro b hb
        split
        · exact hnb.2 b hb (by assumption)
        · rfl
      rw [List.map_congr_left hpt, List.map_id']
    rw [List.foldl_cons, hone]
    exact ih books (fun x hx => h x (List.mem_cons_of_mem nb hx))

/-- Update-stability transfers along permutations. -/
theorem fixedFor_of_perm {nb : Book} {l1 l2 : List Book}
    (hp : List.Perm l1 l2) (hf : FixedFor nb l1) : FixedFor nb l2 :=
  fun b hb hid => hf b (hp.symm.subset hb) hid

/-- The sorted store is sorted. -/
theorem sorted_sortBooks (l : List Book) : List.Sorted bookLE (sortBooks l) :=
  List.sorted_insertionSort bookLE l

/-- Sorting an already sorted store changes nothing. -/
theorem sortBooks_of_sorted {l : List Book} (h : List.Sorted bookLE l) :
    sortBooks l = l :=
  h.insertionSort_eq

/-! ## C3: idempotent merge -/

/-- C3: under the store invariants (unique ids in the store and in the
scraped list), merging the same scraped list twice is literally idempotent
— the second merge returns the first merge's store unchanged, so it creates
no duplicate, drifts no field, and preserves populated slugs — and one
record per id is preserved (ids stay duplicate-free). -/
theorem c3_merge_idempotent (books scraped : List Book)
    (hB : (ids books).Nodup) (hS : (ids scraped).Nodup) :
    merge_scraped (merge_scraped books scraped) scraped =
      merge_scraped books scraped ∧
    (ids (merge_scraped books scraped)).Nodup := by
  have hnodup : (ids (merge_scraped books scraped)).Nodup :=
    nodup_ids_sortBooks _ (nodup_ids_foldl scraped books hB)
  refine ⟨?_, hnodup⟩
  have hfix : ∀ nb ∈ scraped,
      nb.id ∈ ids (merge_scraped books scraped) ∧
      FixedFor nb (merge_scraped books scraped) := by
    intro nb hmem
    constructor
    · exact ((ids_perm_sortBooks (scraped.foldl mergeOne books)).mem_iff).mpr
        (mem_ids_foldl_of_mem scraped books nb hmem)
    · exact fixedFor_of_perm (perm_sortBooks (scraped.foldl mergeOne books)).symm
        (fixedFor_foldl scraped books nb hS hmem)
  have hfold : scraped.foldl mergeOne (merge_scraped books scraped) =
      merge_scraped books scraped :=
    foldl_mergeOne_fixed scraped _ hfix
  show sortBooks (scraped.foldl mergeOne (merge_scraped books scraped)) =
    merge_scraped books scraped
  rw [hfold]
  exact sortBooks_of_sorted (sorted_sortBooks (scraped.foldl mergeOne books))

/-- C3 witness: a store holding a failed record for id 001 merged twice
with a scraped list containing a fresh 001 and a new 002. -/
theorem c3_merge_idempotent_witness :
    merge_scraped (merge_scraped [failedCopyBook] [sampleBook, sampleBook2])
        [sampleBook, sampleBook2] =
      merge_scraped [failedCopyBook] [sampleBook, sampleBook2] ∧
    (ids (merge_scraped [failedCopyBook] [sampleBook, sampleBook2])).Nodup :=
  c3_merge_idempotent [failedCopyBook] [sampleBook, sampleBook2]
    (by decide) (by decide)

end ApkSss
